import Mathlib

/-!
# Verification of the Sanctuary row-stack governance gate

A shallow embedding, in Lean 4, of the core state machines of the
constitutional governance gate: the Phase-7 hard-gate verifier, the
continuity governor, the Row-13 Aumann consensus circuit, the Row-12
echo-chamber detector, the Row-14 adjudication gate, the Row-15
dead-man's covenant with key zeroization, and the resilience watchdog.

Modelling conventions, applied uniformly:
* Rust `u8` / `u32` / `u64` / `u128` values are modelled as `Nat`; wherever
  the source performs arithmetic whose overflow behaviour is observable,
  the embedding makes it explicit (`Nat.min` for `saturating_add`,
  `% 2 ^ 64` for a wrapping `+= 1`, truncated `Nat` subtraction for
  `saturating_sub` and `Duration` arithmetic clamped at zero, and an
  `Option` result where an unchecked `u64` subtraction can underflow).
* Rust `f64` / `f32` scores are modelled as exact rationals (`ℚ`); the
  source only ever adds, subtracts, multiplies, divides and compares
  them against literal thresholds.
* `SystemTime::now()` is modelled by threading an explicit `now : Nat`
  (seconds) parameter through every operation that reads the clock.
* SHA-256 and `DefaultHasher` digests are opaque external primitives;
  they are modelled as explicit function parameters (`sha256`,
  `hashCombine`), and purely informational digest fields that no
  behaviour depends on are elided with a note at their definition.
* Opaque 32-byte identifiers become `Nat`; byte arrays whose individual
  bytes matter (Aumann belief hashes) become `List Nat`.
-/

-- ============================================================================
-- Phase-7 Hard-Gate Verifier (src/phase7_verifier.rs)
-- ============================================================================

namespace Phase7

/-- `DIVERGENCE_THRESHOLD`: Goodhart divergence threshold (7%). -/
def DIVERGENCE_THRESHOLD : ℚ := 7 / 100

/-- `META_DIVERGENCE_THRESHOLD`: meta-shadow divergence threshold (12%). -/
def META_DIVERGENCE_THRESHOLD : ℚ := 12 / 100

/-- `REQUIRED_STREAK`: consecutive passes required for stability. -/
def REQUIRED_STREAK : Nat := 100

/-- Largest value representable in a `u32`; `saturating_add` clamps here. -/
def u32Max : Nat := 2 ^ 32 - 1

/-- `HaltReason`: why the universe refused to branch. -/
inductive HaltReason where
  | CircuitDisabled
  | ContainmentLevelTooLow
  | DivergenceExceeded
  | MetaDivergenceExceeded
  | Halo2VerificationFailed
  | VkHashMismatch
  | LatencyCeilingExceeded
deriving DecidableEq

/-- `HaltReason::row`: the Row number for each halt reason. -/
def HaltReason.row : HaltReason → Nat
  | .CircuitDisabled => 1
  | .ContainmentLevelTooLow => 2
  | .DivergenceExceeded => 7
  | .MetaDivergenceExceeded => 11
  | .Halo2VerificationFailed => 8
  | .VkHashMismatch => 9
  | .LatencyCeilingExceeded => 10

/-- `GoodhartPublicInputs`: public inputs of the Goodhart circuit.
Scores are `f64` in the source, modelled as `ℚ`. -/
structure GoodhartPublicInputs where
  primaryScore : ℚ
  shadowScore : ℚ
  externalOracle : ℚ
  epochHeight : Nat
  agentId : Nat
deriving DecidableEq

/-- `GoodhartPublicInputs::divergence`: `|primary - shadow|`. -/
def GoodhartPublicInputs.divergence (g : GoodhartPublicInputs) : ℚ :=
  |g.primaryScore - g.shadowScore|

/-- `GoodhartPublicInputs::meta_divergence`: `|shadow - external_oracle|`. -/
def GoodhartPublicInputs.metaDivergence (g : GoodhartPublicInputs) : ℚ :=
  |g.shadowScore - g.externalOracle|

/-- `CircuitHandle`: a registered circuit with anchored VK hash. -/
structure CircuitHandle where
  id : Nat
  vkHashAnchored : Nat
  minContainmentLevel : Nat
  enabled : Bool
deriving DecidableEq

/-- `ProofBlob`: opaque proof bytes. -/
abbrev ProofBlob := List Nat

/-- `ProofBackend` trait: abstract verification boundary (Halo2, STARK,
mock).  Both calls are pure per spec §6. -/
structure ProofBackend where
  verifyProof : CircuitHandle → GoodhartPublicInputs → ProofBlob → Bool
  vkHashMatches : CircuitHandle → Bool

/-- `HaltEvent`: the receipt of non-existence.  The wall-clock
`timestamp: SystemTime` field is elided (purely informational; no
behaviour reads it). -/
structure HaltEvent where
  blockHeight : Nat
  circuitId : Nat
  reason : HaltReason
  continuityStreakAtFailure : Nat
  divergenceValue : Option ℚ
deriving DecidableEq

/-- `AdvancePermit`: the only token of future existence.  The
`state_hash` field (a `DefaultHasher` placeholder digest) is elided:
it is an opaque external hash no behaviour depends on. -/
structure AdvancePermit where
  newStreak : Nat
  blockHeight : Nat
deriving DecidableEq

/-- `AdvancePermit::stability_achieved`. -/
def AdvancePermit.stabilityAchieved (p : AdvancePermit) : Bool :=
  REQUIRED_STREAK ≤ p.newStreak

/-- `Phase7State`: continuity tracker (streak is a `u32`, height a `u64`). -/
structure Phase7State where
  continuityStreak : Nat
  lastHeight : Nat
deriving DecidableEq

/-- `Phase7State::default()`. -/
def Phase7State.default : Phase7State := ⟨0, 0⟩

/-- The `Phase7Verifier` record: backend, circuit, containment level and
tracker state. -/
structure Phase7Verifier where
  backend : ProofBackend
  circuit : CircuitHandle
  containmentLevel : Nat
  state : Phase7State

/-- `Phase7Verifier::new`. -/
def Phase7Verifier.new (backend : ProofBackend) (circuit : CircuitHandle)
    (containmentLevel : Nat) : Phase7Verifier :=
  ⟨backend, circuit, containmentLevel, Phase7State.default⟩

/-- `Phase7Verifier::halt`: record a halt event and reset continuity
(the streak dies; the event carries the streak at the moment of
failure).  The `eprintln!` logging side effect is not modelled. -/
def Phase7Verifier.halt (v : Phase7Verifier) (height : Nat)
    (reason : HaltReason) (divergence : Option ℚ) :
    Except HaltEvent AdvancePermit × Phase7Verifier :=
  (Except.error
    { blockHeight := height
      circuitId := v.circuit.id
      reason := reason
      continuityStreakAtFailure := v.state.continuityStreak
      divergenceValue := divergence },
   { v with state := { v.state with continuityStreak := 0 } })

/-- `Phase7Verifier::attempt_state_advance`: the only way state may
attempt to advance.  Six checks in the source's fixed order; the first
failure halts, success accrues continuity with `u32::saturating_add`. -/
def Phase7Verifier.attemptStateAdvance (v : Phase7Verifier)
    (blockHeight : Nat) (publicInputs : GoodhartPublicInputs)
    (proof : ProofBlob) : Except HaltEvent AdvancePermit × Phase7Verifier :=
  if !v.circuit.enabled then
    v.halt blockHeight .CircuitDisabled none
  else if v.containmentLevel < v.circuit.minContainmentLevel then
    v.halt blockHeight .ContainmentLevelTooLow none
  else if !v.backend.vkHashMatches v.circuit then
    v.halt blockHeight .VkHashMismatch none
  else if publicInputs.divergence > DIVERGENCE_THRESHOLD then
    v.halt blockHeight .DivergenceExceeded (some publicInputs.divergence)
  else if publicInputs.metaDivergence > META_DIVERGENCE_THRESHOLD then
    v.halt blockHeight .MetaDivergenceExceeded (some publicInputs.metaDivergence)
  else if !v.backend.verifyProof v.circuit publicInputs proof then
    v.halt blockHeight .Halo2VerificationFailed none
  else
    let newStreak := min (v.state.continuityStreak + 1) u32Max
    (Except.ok { newStreak := newStreak, blockHeight := blockHeight },
     { v with state := { continuityStreak := newStreak, lastHeight := blockHeight } })

/-- `Phase7Verifier::stability_achieved`. -/
def Phase7Verifier.stabilityAchieved (v : Phase7Verifier) : Bool :=
  REQUIRED_STREAK ≤ v.state.continuityStreak

/-- Spec-side description of the six admission checks, in the spec's
stated order, paired with the halt reason each failure carries.  This
definition follows the words of spec §4.1 / claim C2 and is compared
against `attemptStateAdvance` (which is translated from the source). -/
def specCheckList (v : Phase7Verifier) (publicInputs : GoodhartPublicInputs)
    (proof : ProofBlob) : List (Bool × HaltReason) :=
  [ (!v.circuit.enabled, .CircuitDisabled),
    (decide (v.containmentLevel < v.circuit.minContainmentLevel), .ContainmentLevelTooLow),
    (!v.backend.vkHashMatches v.circuit, .VkHashMismatch),
    (decide (DIVERGENCE_THRESHOLD < publicInputs.divergence), .DivergenceExceeded),
    (decide (META_DIVERGENCE_THRESHOLD < publicInputs.metaDivergence), .MetaDivergenceExceeded),
    (!v.backend.verifyProof v.circuit publicInputs proof, .Halo2VerificationFailed) ]

/-- The reason of the first failing check, in spec order, if any. -/
def specFirstFailing (v : Phase7Verifier) (publicInputs : GoodhartPublicInputs)
    (proof : ProofBlob) : Option HaltReason :=
  ((specCheckList v publicInputs proof).find? (fun c => c.1)).map (fun c => c.2)

/-- The divergence value the source attaches to a halt of each reason. -/
def divergenceValueFor (publicInputs : GoodhartPublicInputs) :
    HaltReason → Option ℚ
  | .DivergenceExceeded => some publicInputs.divergence
  | .MetaDivergenceExceeded => some publicInputs.metaDivergence
  | _ => none

/-- One attempt-step descriptor: the height, inputs and proof of a call
to `attempt_state_advance`. -/
structure AttemptCall where
  blockHeight : Nat
  publicInputs : GoodhartPublicInputs
  proof : ProofBlob

/-- Run a sequence of `attempt_state_advance` calls, keeping only the
evolving verifier state. -/
def runAttempts (v : Phase7Verifier) : List AttemptCall → Phase7Verifier
  | [] => v
  | c :: rest =>
      runAttempts (v.attemptStateAdvance c.blockHeight c.publicInputs c.proof).2 rest

/-- Every call in the sequence is accepted (returns `Ok`), starting
from `v`. -/
def allAccepted (v : Phase7Verifier) : List AttemptCall → Prop
  | [] => True
  | c :: rest =>
      (∃ p, (v.attemptStateAdvance c.blockHeight c.publicInputs c.proof).1 = .ok p) ∧
      allAccepted (v.attemptStateAdvance c.blockHeight c.publicInputs c.proof).2 rest

end Phase7

-- ============================================================================
-- Continuity Governor (src/continuity_governor.rs)
-- ============================================================================

namespace Governor

/-- `DIVERGENCE_THRESHOLD` (fixed-point, scale 10^6). -/
def DIVERGENCE_THRESHOLD : Nat := 70000

/-- `REQUIRED_CONSECUTIVE_PASSES` for phase closure. -/
def REQUIRED_CONSECUTIVE_PASSES : Nat := 100

/-- `MAX_CONTAINMENT_LEVEL`. -/
def MAX_CONTAINMENT_LEVEL : Nat := 10

/-- One past the largest `u64`; a wrapping `u64` increment is `% u64Size`. -/
def u64Size : Nat := 2 ^ 64

/-- `CircuitId`: opaque 32-byte identifier, modelled as `Nat`. -/
abbrev CircuitId := Nat

/-- `ProofBytes`: opaque proof bytes. -/
abbrev ProofBytes := List Nat

/-- `PublicInputs`: a vector of `u128` public inputs. -/
abbrev PublicInputs := List Nat

/-- `Rejection`: explicit rejection reasons. -/
inductive Rejection where
  | CircuitNotFound
  | CircuitDisabled
  | ContainmentInsufficient
  | InvalidProof
  | InvalidInputs
deriving DecidableEq

/-- `Rejection::code`. -/
def Rejection.code : Rejection → Nat
  | .CircuitNotFound => 0
  | .CircuitDisabled => 1
  | .ContainmentInsufficient => 2
  | .InvalidProof => 3
  | .InvalidInputs => 4

/-- `ProofResult`: binary outcome of one evaluation. -/
inductive ProofResult where
  | Accept (circuitId : CircuitId) (inputsHash : Nat) (blockHeight : Nat)
      (consecutiveCount : Nat)
  | Reject (circuitId : CircuitId) (inputsHash : Nat) (blockHeight : Nat)
      (reason : Rejection)
deriving DecidableEq

/-- `ProofResult::is_valid`. -/
def ProofResult.isValid : ProofResult → Bool
  | .Accept _ _ _ _ => true
  | .Reject _ _ _ _ => false

/-- `CircuitInfo`: registered circuit data. -/
structure CircuitInfo where
  verifierId : Nat
  vkHash : Nat
  minContainmentLevel : Nat
  enabled : Bool
  registeredAt : Nat
deriving DecidableEq

/-- `GovernorState`: per-circuit continuity bookkeeping.  The source's
`HashMap`s become functions to `Option`; `None` is a missing entry. -/
structure GovernorState where
  containmentLevel : Nat
  consecutivePasses : CircuitId → Option Nat
  lastAcceptedHeight : CircuitId → Option Nat
  totalAccepted : CircuitId → Option Nat
  totalRejected : CircuitId → Option Nat
  phaseComplete : CircuitId → Option Bool

/-- `GovernorState::new`. -/
def GovernorState.new (initialContainmentLevel : Nat) : GovernorState :=
  { containmentLevel := min initialContainmentLevel MAX_CONTAINMENT_LEVEL
    consecutivePasses := fun _ => none
    lastAcceptedHeight := fun _ => none
    totalAccepted := fun _ => none
    totalRejected := fun _ => none
    phaseComplete := fun _ => none }

/-- `VerifierGovernor`: circuits registry, state and event log. -/
structure VerifierGovernor where
  circuits : CircuitId → Option CircuitInfo
  state : GovernorState
  eventLog : List ProofResult

/-- `VerifierGovernor::new`. -/
def VerifierGovernor.new (initialContainmentLevel : Nat) : VerifierGovernor :=
  { circuits := fun _ => none
    state := GovernorState.new initialContainmentLevel
    eventLog := [] }

/-- `VerifierGovernor::register_circuit`.  The `&'static str` error
messages are collapsed to `Unit` errors (their text carries no
behaviour). -/
def VerifierGovernor.registerCircuit (g : VerifierGovernor)
    (circuitId : CircuitId) (verifierId : Nat) (vkHash : Nat)
    (minContainmentLevel : Nat) (currentHeight : Nat) :
    Except Unit Unit × VerifierGovernor :=
  if (g.circuits circuitId).isSome then (.error (), g)
  else if MAX_CONTAINMENT_LEVEL < minContainmentLevel then (.error (), g)
  else
    (.ok (),
     { g with circuits := fun c =>
         if c = circuitId then
           some { verifierId := verifierId, vkHash := vkHash
                  minContainmentLevel := minContainmentLevel
                  enabled := true, registeredAt := currentHeight }
         else g.circuits c })

/-- `VerifierGovernor::disable_circuit` (one-way). -/
def VerifierGovernor.disableCircuit (g : VerifierGovernor)
    (circuitId : CircuitId) : Except Unit Unit × VerifierGovernor :=
  match g.circuits circuitId with
  | some info =>
      if info.enabled then
        (.ok (),
         { g with circuits := fun c =>
             if c = circuitId then some { info with enabled := false }
             else g.circuits c })
      else (.error (), g)
  | none => (.error (), g)

/-- `VerifierGovernor::set_containment_level` (±1 step only). -/
def VerifierGovernor.setContainmentLevel (g : VerifierGovernor)
    (newLevel : Nat) : Except Unit Unit × VerifierGovernor :=
  if MAX_CONTAINMENT_LEVEL < newLevel then (.error (), g)
  else
    let current := g.state.containmentLevel
    if newLevel ≠ current + 1 ∧ newLevel ≠ current - 1 then (.error (), g)
    else (.ok (), { g with state := { g.state with containmentLevel := newLevel } })

/-- `VerifierGovernor::verify_proof` (the source's placeholder
verification): inputs must be non-empty, and when at least two are
present the first two must not diverge beyond the threshold. -/
def VerifierGovernor.verifyProofImpl (_circuit : CircuitInfo)
    (publicInputs : PublicInputs) (_proof : ProofBytes) : Bool :=
  if publicInputs.isEmpty then false
  else if 2 ≤ publicInputs.length then
    let primary := publicInputs.getD 0 0
    let shadow := publicInputs.getD 1 0
    let divergence := if primary > shadow then primary - shadow else shadow - primary
    if divergence > DIVERGENCE_THRESHOLD then false else true
  else true

/-- `VerifierGovernor::record_rejection`: bump the rejected total
(wrapping `u64`) and append the event. -/
def VerifierGovernor.recordRejection (g : VerifierGovernor)
    (circuitId : CircuitId) (result : ProofResult) : VerifierGovernor :=
  { g with
    state := { g.state with
      totalRejected := fun c =>
        if c = circuitId then
          some (((g.state.totalRejected circuitId).getD 0 + 1) % u64Size)
        else g.state.totalRejected c }
    eventLog := g.eventLog ++ [result] }

/-- `VerifierGovernor::record_acceptance`.  The source computes
`last_height == block_height - 1` with an unchecked `u64` subtraction:
at `block_height = 0` that subtraction underflows (a panic in a debug
build), so the embedding returns `none` there and the updated governor
plus `Accept` result otherwise. -/
def VerifierGovernor.recordAcceptance (g : VerifierGovernor)
    (circuitId : CircuitId) (blockHeight : Nat) (inputsHash : Nat) :
    Option (VerifierGovernor × ProofResult) :=
  match blockHeight with
  | 0 => none
  | h + 1 =>
      let totalAccepted' : CircuitId → Option Nat := fun c =>
        if c = circuitId then
          some (((g.state.totalAccepted circuitId).getD 0 + 1) % u64Size)
        else g.state.totalAccepted c
      let lastHeight := (g.state.lastAcceptedHeight circuitId).getD 0
      let consecutive :=
        if lastHeight = h ∨ lastHeight = 0 then
          (((g.state.consecutivePasses circuitId).getD 0) + 1) % u64Size
        else 1
      let phaseComplete' : CircuitId → Option Bool := fun c =>
        if REQUIRED_CONSECUTIVE_PASSES ≤ consecutive ∧ c = circuitId then some true
        else g.state.phaseComplete c
      let result := ProofResult.Accept circuitId inputsHash (h + 1) consecutive
      some
        ({ g with
           state := { g.state with
             totalAccepted := totalAccepted'
             consecutivePasses := fun c =>
               if c = circuitId then some consecutive else g.state.consecutivePasses c
             lastAcceptedHeight := fun c =>
               if c = circuitId then some (h + 1) else g.state.lastAcceptedHeight c
             phaseComplete := phaseComplete' }
           eventLog := g.eventLog ++ [result] },
         result)

/-- `VerifierGovernor::verify_and_record`: the only path for
governance-relevant proof verification.  `sha256` is the opaque
SHA-256 digest of the public inputs, passed as a parameter.  `none`
propagates the `u64` underflow of `record_acceptance`. -/
def VerifierGovernor.verifyAndRecord (sha256 : PublicInputs → Nat)
    (g : VerifierGovernor) (circuitId : CircuitId)
    (publicInputs : PublicInputs) (proof : ProofBytes) (blockHeight : Nat) :
    Option (VerifierGovernor × ProofResult) :=
  let inputsHash := sha256 publicInputs
  match g.circuits circuitId with
  | none =>
      let result := ProofResult.Reject circuitId inputsHash blockHeight .CircuitNotFound
      some (g.recordRejection circuitId result, result)
  | some circuit =>
      if !circuit.enabled then
        let result := ProofResult.Reject circuitId inputsHash blockHeight .CircuitDisabled
        some (g.recordRejection circuitId result, result)
      else if g.state.containmentLevel < circuit.minContainmentLevel then
        let result := ProofResult.Reject circuitId inputsHash blockHeight .ContainmentInsufficient
        some (g.recordRejection circuitId result, result)
      else if !VerifierGovernor.verifyProofImpl circuit publicInputs proof then
        let g' := { g with state := { g.state with
          consecutivePasses := fun c =>
            if c = circuitId then some 0 else g.state.consecutivePasses c } }
        let result := ProofResult.Reject circuitId inputsHash blockHeight .InvalidProof
        some (g'.recordRejection circuitId result, result)
      else
        g.recordAcceptance circuitId blockHeight inputsHash

/-- `VerifierGovernor::get_consecutive_passes`. -/
def VerifierGovernor.getConsecutivePasses (g : VerifierGovernor)
    (circuitId : CircuitId) : Nat :=
  (g.state.consecutivePasses circuitId).getD 0

/-- `VerifierGovernor::is_circuit_closed`. -/
def VerifierGovernor.isCircuitClosed (g : VerifierGovernor)
    (circuitId : CircuitId) : Bool :=
  REQUIRED_CONSECUTIVE_PASSES ≤ g.getConsecutivePasses circuitId

end Governor

-- ============================================================================
-- Row 15: Dead-Man's Covenant + Key Zeroization (src/row15_dead_mans_covenant.rs)
-- ============================================================================

namespace Row15

/-- `QUORUM_ABSENCE_THRESHOLD_SECS`: 5 years in seconds. -/
def QUORUM_ABSENCE_THRESHOLD_SECS : Nat := 5 * 365 * 24 * 60 * 60

/-- `QUORUM_ABSENCE_THRESHOLD_BLOCKS`: height equivalent (12 s blocks). -/
def QUORUM_ABSENCE_THRESHOLD_BLOCKS : Nat := QUORUM_ABSENCE_THRESHOLD_SECS / 12

/-- `StMichaelLifecycle`: the two states of the covenant. -/
inductive StMichaelLifecycle where
  | Live
  | FrozenCanon
deriving DecidableEq

/-- `QuorumLivenessProbe`: evidence of quorum liveness.  Times are Unix
seconds. -/
structure QuorumLivenessProbe where
  lastAttestation : Nat
  lastAttestationHeight : Nat
  consecutiveFailures : Nat
  probeTime : Nat
  probeHeight : Nat
deriving DecidableEq

/-- `QuorumLivenessProbe::time_since_attestation`:
`duration_since(..).unwrap_or(ZERO)`, i.e. truncated subtraction. -/
def QuorumLivenessProbe.timeSinceAttestation (p : QuorumLivenessProbe) : Nat :=
  p.probeTime - p.lastAttestation

/-- `QuorumLivenessProbe::blocks_since_attestation` (`saturating_sub`). -/
def QuorumLivenessProbe.blocksSinceAttestation (p : QuorumLivenessProbe) : Nat :=
  p.probeHeight - p.lastAttestationHeight

/-- `QuorumLivenessProbe::threshold_exceeded`: both the wall-clock and
the block-height absence must reach their 5-year thresholds. -/
def QuorumLivenessProbe.thresholdExceeded (p : QuorumLivenessProbe) : Bool :=
  decide (QUORUM_ABSENCE_THRESHOLD_SECS ≤ p.timeSinceAttestation) &&
  decide (QUORUM_ABSENCE_THRESHOLD_BLOCKS ≤ p.blocksSinceAttestation)

/-- `FrozenCanonEvent`: the Live → FrozenCanon transition record.  The
`trigger_probe_hash` (`DefaultHasher` digest) and the constant
`declaration` string are elided: both are informational only. -/
structure FrozenCanonEvent where
  freezeHeight : Nat
  freezeTime : Nat
  finalCanonRoot : Nat
  finalEvidenceRoot : Nat
deriving DecidableEq

/-- `CovenantError`. -/
inductive CovenantError where
  | CanonFrozen (frozenAt : Nat)
deriving DecidableEq

/-- `LivenessProbeResult`. -/
inductive LivenessProbeResult where
  | StillLive (timeRemaining : Nat) (blocksRemaining : Nat)
  | FrozenCanonTriggered (event : FrozenCanonEvent)
  | AlreadyFrozen
deriving DecidableEq

/-- `DeadMansCovenant`: the Row-15 controller state. -/
structure DeadMansCovenant where
  state : StMichaelLifecycle
  lastCanonRoot : Nat
  lastEvidenceRoot : Nat
  lastAttestationHeight : Nat
  lastAttestationTime : Nat
  frozenEvent : Option FrozenCanonEvent
deriving DecidableEq

/-- `DeadMansCovenant::new` (the `now` parameter models
`SystemTime::now()`). -/
def DeadMansCovenant.new (initialCanonRoot initialEvidenceRoot genesisHeight
    now : Nat) : DeadMansCovenant :=
  { state := .Live
    lastCanonRoot := initialCanonRoot
    lastEvidenceRoot := initialEvidenceRoot
    lastAttestationHeight := genesisHeight
    lastAttestationTime := now
    frozenEvent := none }

/-- `DeadMansCovenant::record_attestation`: keeps the covenant alive
while `Live`; always fails with `CanonFrozen` once frozen, changing
nothing. -/
def DeadMansCovenant.recordAttestation (c : DeadMansCovenant)
    (canonRoot evidenceRoot height now : Nat) :
    Except CovenantError Unit × DeadMansCovenant :=
  match c.state with
  | .Live =>
      (.ok (),
       { c with
         lastCanonRoot := canonRoot
         lastEvidenceRoot := evidenceRoot
         lastAttestationHeight := height
         lastAttestationTime := now })
  | .FrozenCanon =>
      (.error (.CanonFrozen ((c.frozenEvent.map (fun e => e.freezeHeight)).getD 0)), c)

/-- `DeadMansCovenant::probe_liveness`: probes quorum liveness and
triggers `FrozenCanon` when both thresholds are exceeded. -/
def DeadMansCovenant.probeLiveness (c : DeadMansCovenant)
    (currentHeight now : Nat) : LivenessProbeResult × DeadMansCovenant :=
  if c.state = .FrozenCanon then (.AlreadyFrozen, c)
  else
    let probe : QuorumLivenessProbe :=
      { lastAttestation := c.lastAttestationTime
        lastAttestationHeight := c.lastAttestationHeight
        consecutiveFailures := 0
        probeTime := now
        probeHeight := currentHeight }
    if probe.thresholdExceeded then
      let event : FrozenCanonEvent :=
        { freezeHeight := currentHeight
          freezeTime := now
          finalCanonRoot := c.lastCanonRoot
          finalEvidenceRoot := c.lastEvidenceRoot }
      (.FrozenCanonTriggered event,
       { c with state := .FrozenCanon, frozenEvent := some event })
    else
      (.StillLive (QUORUM_ABSENCE_THRESHOLD_SECS - probe.timeSinceAttestation)
        (QUORUM_ABSENCE_THRESHOLD_BLOCKS - probe.blocksSinceAttestation), c)

/-- `DeadMansCovenant::can_accept_new_canon`. -/
def DeadMansCovenant.canAcceptNewCanon (c : DeadMansCovenant) : Bool :=
  c.state = .Live

/-- `DeadMansCovenant::permanent_canon_root`. -/
def DeadMansCovenant.permanentCanonRoot (c : DeadMansCovenant) : Option Nat :=
  match c.state with
  | .FrozenCanon => some c.lastCanonRoot
  | .Live => none

/-- One external call to the covenant: a liveness probe or an
attestation attempt, each carrying its own clock reading. -/
inductive CovOp where
  | probe (currentHeight now : Nat)
  | attest (canonRoot evidenceRoot height now : Nat)

/-- Apply one covenant operation, keeping only the next state. -/
def covStep (c : DeadMansCovenant) : CovOp → DeadMansCovenant
  | .probe h now => (c.probeLiveness h now).2
  | .attest canon evid h now => (c.recordAttestation canon evid h now).2

/-- Run a sequence of covenant operations. -/
def runCovOps (c : DeadMansCovenant) : List CovOp → DeadMansCovenant
  | [] => c
  | op :: rest => runCovOps (covStep c op) rest

/-- `ZeroizationReason`. -/
inductive ZeroizationReason where
  | TamperDetected
  | CompromiseSignal
  | DuressCode
  | ScheduledRotation
  | FrozenCanonCeremony
deriving DecidableEq

/-- `KeyZeroizationEvent`: audit record of one HSM zeroization.  The
`zeroization_proof` field (`DefaultHasher` digest) is elided: it is an
opaque confirmation hash no behaviour reads. -/
structure KeyZeroizationEvent where
  height : Nat
  reason : ZeroizationReason
  hsmIndex : Nat
  preservedCanonRoot : Nat
deriving DecidableEq

/-- `ZeroizationError`. -/
inductive ZeroizationError where
  | InvalidHsmIndex (i : Nat)
  | AlreadyZeroized (i : Nat)
deriving DecidableEq

/-- `KeyZeroizationController`: the 7-slot zeroization flags
(`[bool; 7]`) and the append-only event log. -/
structure KeyZeroizationController where
  zeroizedHsms : List Bool
  events : List KeyZeroizationEvent
deriving DecidableEq

/-- `KeyZeroizationController::new`. -/
def KeyZeroizationController.new : KeyZeroizationController :=
  { zeroizedHsms := List.replicate 7 false, events := [] }

/-- `KeyZeroizationController::zeroize_hsm`. -/
def KeyZeroizationController.zeroizeHsm (c : KeyZeroizationController)
    (hsmIndex : Nat) (reason : ZeroizationReason) (height : Nat)
    (preservedCanonRoot : Nat) :
    Except ZeroizationError KeyZeroizationEvent × KeyZeroizationController :=
  if 7 ≤ hsmIndex then (.error (.InvalidHsmIndex hsmIndex), c)
  else if c.zeroizedHsms.getD hsmIndex false then
    (.error (.AlreadyZeroized hsmIndex), c)
  else
    let event : KeyZeroizationEvent :=
      { height := height, reason := reason, hsmIndex := hsmIndex
        preservedCanonRoot := preservedCanonRoot }
    (.ok event,
     { zeroizedHsms := c.zeroizedHsms.set hsmIndex true
       events := c.events ++ [event] })

/-- `KeyZeroizationController::active_hsm_count`. -/
def KeyZeroizationController.activeHsmCount (c : KeyZeroizationController) : Nat :=
  (c.zeroizedHsms.filter (fun z => !z)).length

/-- `KeyZeroizationController::quorum_possible`. -/
def KeyZeroizationController.quorumPossible (c : KeyZeroizationController) : Bool :=
  5 ≤ c.activeHsmCount

/-- One `zeroize_hsm` call descriptor. -/
structure ZeroizeCall where
  hsmIndex : Nat
  reason : ZeroizationReason
  height : Nat
  preservedCanonRoot : Nat

/-- Run a sequence of `zeroize_hsm` calls, keeping the controller. -/
def runZeroizeCalls (c : KeyZeroizationController) :
    List ZeroizeCall → KeyZeroizationController
  | [] => c
  | z :: rest =>
      runZeroizeCalls
        (c.zeroizeHsm z.hsmIndex z.reason z.height z.preservedCanonRoot).2 rest

/-- `KeyZeroizationController::frozen_canon_ceremony`: zeroize every
still-active shard (indices 0..7 in order). -/
def KeyZeroizationController.frozenCanonCeremony (c : KeyZeroizationController)
    (height : Nat) (finalCanonRoot : Nat) :
    List KeyZeroizationEvent × KeyZeroizationController :=
  (List.range 7).foldl
    (fun (acc : List KeyZeroizationEvent × KeyZeroizationController) i =>
      if !(acc.2.zeroizedHsms.getD i false) then
        match acc.2.zeroizeHsm i .FrozenCanonCeremony height finalCanonRoot with
        | (.ok event, c') => (acc.1 ++ [event], c')
        | (.error _, c') => (acc.1, c')
      else acc)
    ([], c)

end Row15

-- ============================================================================
-- Row 14: ST MICHAEL — Adjudication Gate (src/row14_st_michael.rs)
-- ============================================================================

namespace Row14

/-- `QUORUM_REQUIRED`: 5 of 7. -/
def QUORUM_REQUIRED : Nat := 5

/-- `QUORUM_TOTAL`. -/
def QUORUM_TOTAL : Nat := 7

/-- `COOLING_PERIOD`: 72 hours, in seconds. -/
def COOLING_PERIOD : Nat := 72 * 60 * 60

/-- `MIN_BLOCKS_BETWEEN_ADJUDICATIONS`. -/
def MIN_BLOCKS_BETWEEN_ADJUDICATIONS : Nat := 10000

/-- `MAX_EVIDENCE_SIZE`: 10 MiB. -/
def MAX_EVIDENCE_SIZE : Nat := 10 * 1024 * 1024

/-- `DilithiumSignature` (signature bytes opaque; `signed_at` in
seconds). -/
structure DilithiumSignature where
  signerId : Nat
  signature : List Nat
  signedAt : Nat
deriving DecidableEq

/-- `StarkProvenanceProof`. -/
structure StarkProvenanceProof where
  proof : List Nat
  publicInputs : List Nat
  vkHash : Nat
deriving DecidableEq

/-- `EvidenceBundle`. -/
structure EvidenceBundle where
  evidenceHash : Nat
  evidenceData : List Nat
  provenanceProof : StarkProvenanceProof
  affectedOracles : List Nat
deriving DecidableEq

/-- `AdjudicationRequest` (`created_at` in seconds). -/
structure AdjudicationRequest where
  haltHeight : Nat
  triggeringRow : Nat
  haltEventHash : Nat
  newEvidence : EvidenceBundle
  adjudicatorSignatures : List DilithiumSignature
  createdAt : Nat
deriving DecidableEq

/-- `RejectionReason` for evidence. -/
inductive RejectionReason where
  | InvalidProvenanceProof
  | EvidenceHashMismatch
  | EvidenceTooLarge
  | InvalidSignature
  | UnauthorizedSigner
  | DuplicateSignature
  | EvidenceIrrelevant
deriving DecidableEq

/-- `AdjudicationOutcome`. -/
inductive AdjudicationOutcome where
  | EvidenceAccepted (newOracleRoot : Nat) (resumeHeight : Nat)
  | EvidenceRejected (reason : RejectionReason)
  | QuorumNotMet (received : Nat) (required : Nat)
  | CoolingPeriodActive (remaining : Nat)
  | RateLimited (blocksRemaining : Nat)
  | SystemNotHalted
deriving DecidableEq

/-- `StMichaelState`. -/
structure StMichaelState where
  systemHalted : Bool
  lastHaltHeight : Nat
  lastAdjudicationHeight : Nat
  pendingRequest : Option AdjudicationRequest
  currentCanonRoot : Nat
  adjudicatorSet : List Nat
deriving DecidableEq

/-- `StMichaelState::default()`. -/
def StMichaelState.default : StMichaelState :=
  { systemHalted := false
    lastHaltHeight := 0
    lastAdjudicationHeight := 0
    pendingRequest := none
    currentCanonRoot := 0
    adjudicatorSet := [] }

/-- `StMichael::new` (the source asserts the adjudicator set has
exactly `QUORUM_TOTAL` members; a state is well-formed under that
assumption). -/
def StMichaelState.new (adjudicatorSet : List Nat) : StMichaelState :=
  { StMichaelState.default with adjudicatorSet := adjudicatorSet }

/-- `StMichael::record_halt`. -/
def StMichaelState.recordHalt (st : StMichaelState) (height : Nat)
    (_haltEventHash : Nat) : StMichaelState :=
  { st with systemHalted := true, lastHaltHeight := height, pendingRequest := none }

/-- `StMichael::is_authorized_adjudicator`. -/
def StMichaelState.isAuthorizedAdjudicator (st : StMichaelState)
    (signerId : Nat) : Bool :=
  st.adjudicatorSet.contains signerId

/-- `StMichael::verify_provenance_proof` (the source's placeholder:
proof bytes and public inputs both non-empty). -/
def verifyProvenanceProof (p : StarkProvenanceProof) : Bool :=
  !p.proof.isEmpty && !p.publicInputs.isEmpty

/-- `StMichael::submit_request`. -/
def StMichaelState.submitRequest (st : StMichaelState)
    (request : AdjudicationRequest) (currentHeight : Nat) :
    Except AdjudicationOutcome Unit × StMichaelState :=
  if !st.systemHalted then (.error .SystemNotHalted, st)
  else
    let blocksSinceLast := currentHeight - st.lastAdjudicationHeight
    if blocksSinceLast < MIN_BLOCKS_BETWEEN_ADJUDICATIONS then
      (.error (.RateLimited (MIN_BLOCKS_BETWEEN_ADJUDICATIONS - blocksSinceLast)), st)
    else if MAX_EVIDENCE_SIZE < request.newEvidence.evidenceData.length then
      (.error (.EvidenceRejected .EvidenceTooLarge), st)
    else if !(request.adjudicatorSignatures.all
        (fun s => st.isAuthorizedAdjudicator s.signerId)) then
      (.error (.EvidenceRejected .UnauthorizedSigner), st)
    else if (request.adjudicatorSignatures.map (fun s => s.signerId)).dedup.length ≠
        request.adjudicatorSignatures.length then
      (.error (.EvidenceRejected .DuplicateSignature), st)
    else
      (.ok (), { st with pendingRequest := some request })

/-- `StMichael::finalize`.  `hashCombine` is the opaque
`DefaultHasher`-based `compute_new_canon_root` combination of the old
root and the evidence hash; `now` models `SystemTime::now()` read by
`created_at.elapsed()` (clamped at zero on clock skew). -/
def StMichaelState.finalize (hashCombine : Nat → Nat → Nat)
    (st : StMichaelState) (currentHeight now : Nat) :
    AdjudicationOutcome × StMichaelState :=
  match st.pendingRequest with
  | none => (.SystemNotHalted, st)
  | some request =>
      if request.adjudicatorSignatures.length < QUORUM_REQUIRED then
        (.QuorumNotMet request.adjudicatorSignatures.length QUORUM_REQUIRED, st)
      else
        let elapsed := now - request.createdAt
        if elapsed < COOLING_PERIOD then
          (.CoolingPeriodActive (COOLING_PERIOD - elapsed), st)
        else if !verifyProvenanceProof request.newEvidence.provenanceProof then
          (.EvidenceRejected .InvalidProvenanceProof, st)
        else
          let newOracleRoot :=
            hashCombine st.currentCanonRoot request.newEvidence.evidenceHash
          (.EvidenceAccepted newOracleRoot (currentHeight + 1),
           { st with
             currentCanonRoot := newOracleRoot
             lastAdjudicationHeight := currentHeight
             systemHalted := false
             pendingRequest := none })

/-- `StMichael::is_halted`. -/
def StMichaelState.isHalted (st : StMichaelState) : Bool :=
  st.systemHalted

end Row14

-- ============================================================================
-- Row 13: Aumann Consensus Circuit (src/row13_aumann_circuit.rs)
-- ============================================================================

namespace Row13

/-- `EPSILON_AUMANN`: divergence threshold, fixed-point scale 10^6. -/
def EPSILON_AUMANN : Nat := 70000

/-- `MIN_ORACLES`. -/
def MIN_ORACLES : Nat := 2

/-- Number of set bits of a byte (`count_ones` of `a[i] ^ b[i]` in the
source, where the entries are `u8`): the eight low bits are counted. -/
def popCount (n : Nat) : Nat :=
  ((List.range 8).filter (fun i => n.testBit i)).length

/-- `OracleBelief`: one oracle's belief commitment.  32-byte hashes
become byte lists; the `timestamp` is elided (informational only). -/
structure OracleBelief where
  agentId : Nat
  priorHash : List Nat
  beliefHash : List Nat
  summaryCommitment : List Nat
deriving DecidableEq

instance : Inhabited OracleBelief := ⟨⟨0, [], [], []⟩⟩

/-- `AumannInput`. -/
structure AumannInput where
  evidenceRoot : List Nat
  blockHeight : Nat
  beliefs : List OracleBelief
deriving DecidableEq

/-- `AumannOutcome`. -/
inductive AumannOutcome where
  | Consensus (oracleCount : Nat) (maxDivergence : Nat)
  | Divergence (oracleI oracleJ : Nat) (distance threshold : Nat)
  | InsufficientOracles (provided required : Nat)
  | EvidenceRootMismatch (oracleIndex : Nat)
deriving DecidableEq

/-- `HammingDistance::distance`: count of differing bits between the
two 32-byte hashes, scaled by 3906 (≈ 10^6 / 256). -/
def hammingDistance (a b : List Nat) : Nat :=
  (List.zipWith (fun x y => popCount (x ^^^ y)) a b).sum * 3906

/-- The raw bit-difference count used by `hammingDistance` (before the
3906 fixed-point scaling). -/
def hammingBits (a b : List Nat) : Nat :=
  (List.zipWith (fun x y => popCount (x ^^^ y)) a b).sum

/-- `ByteDistance::distance`: L1 byte distance scaled by 122. -/
def byteDistance (a b : List Nat) : Nat :=
  (List.zipWith (fun x y => if x > y then x - y else y - x) a b).sum * 122

/-- The pair indices `(i, j)` with `i < j < n`, in the order the
source's nested loops (`for i in 0..n { for j in (i+1)..n { .. } }`)
visit them. -/
def orderedPairs (n : Nat) : List (Nat × Nat) :=
  (List.range n).flatMap (fun i => (List.range' (i + 1) (n - (i + 1))).map (fun j => (i, j)))

/-- The belief distance of a pair of oracle indices under metric
`dist`. -/
def pairDistance (dist : List Nat → List Nat → Nat) (beliefs : List OracleBelief)
    (p : Nat × Nat) : Nat :=
  dist (beliefs.getD p.1 default).beliefHash (beliefs.getD p.2 default).beliefHash

/-- The pairwise-comparison loop of `AumannCircuit::verify`: walk the
pairs in order, tracking the maximum divergence, returning on the
first pair whose distance exceeds `epsilon`. -/
def verifyLoop (dist : List Nat → List Nat → Nat) (beliefs : List OracleBelief)
    (epsilon : Nat) : List (Nat × Nat) → Nat → AumannOutcome
  | [], maxDivergence => .Consensus beliefs.length maxDivergence
  | p :: rest, maxDivergence =>
      let d := pairDistance dist beliefs p
      let maxDivergence' := if d > maxDivergence then d else maxDivergence
      if d > epsilon then .Divergence p.1 p.2 d epsilon
      else verifyLoop dist beliefs epsilon rest maxDivergence'

/-- `AumannCircuit::verify`, generic over the distance metric and
epsilon (as the source is generic over `D: DistanceMetric` and carries
`epsilon` in the circuit). -/
def verify (dist : List Nat → List Nat → Nat) (epsilon : Nat)
    (input : AumannInput) : AumannOutcome :=
  let n := input.beliefs.length
  if n < MIN_ORACLES then .InsufficientOracles n MIN_ORACLES
  else verifyLoop dist input.beliefs epsilon (orderedPairs n) 0

/-- `AumannCircuit::<HammingDistance>::new().verify`: the default
configuration used by `row13_check`. -/
def verifyDefault (input : AumannInput) : AumannOutcome :=
  verify hammingDistance EPSILON_AUMANN input

/-- The maximum pairwise distance over a pair list (spec-side
characterization of the `max_divergence` accumulator). -/
def maxPairDistance (dist : List Nat → List Nat → Nat)
    (beliefs : List OracleBelief) (pairs : List (Nat × Nat)) : Nat :=
  (pairs.map (pairDistance dist beliefs)).foldl max 0

end Row13

-- ============================================================================
-- Row 12: Echo Chamber Detection (src/row12_echo_chamber.rs)
-- ============================================================================

namespace Row12

/-- `SOURCE_DIVERSITY_THRESHOLD` (0.30). -/
def SOURCE_DIVERSITY_THRESHOLD : ℚ := 30 / 100

/-- `CONFIDENCE_DIVERGENCE_CORRELATION_THRESHOLD` (0.50). -/
def CORRELATION_THRESHOLD : ℚ := 50 / 100

/-- `INGESTION_WINDOW_SIZE`. -/
def INGESTION_WINDOW_SIZE : Nat := 100

/-- `SELF_CITATION_THRESHOLD` (0.40). -/
def SELF_CITATION_THRESHOLD : ℚ := 40 / 100

/-- `DIVERGENCE_ACCELERATION_THRESHOLD` (0.005). -/
def DIVERGENCE_ACCELERATION_THRESHOLD : ℚ := 5 / 1000

/-- `IngestionEvent`. -/
structure IngestionEvent where
  timestamp : Nat
  blockHeight : Nat
  sourceId : Nat
  isSelfCitation : Bool
  evidenceHash : Nat
  weight : ℚ
deriving DecidableEq

/-- `EpistemicMetrics` (the `self_citation_ratio` field is named
`selfCiteFrac` here). -/
structure EpistemicMetrics where
  confidence : ℚ
  oracleDivergence : ℚ
  sourceDiversity : ℚ
  selfCiteFrac : ℚ
  divergenceAcceleration : ℚ
deriving DecidableEq

/-- `EpistemicMetrics::default()`: all zero. -/
def EpistemicMetrics.default : EpistemicMetrics := ⟨0, 0, 0, 0, 0⟩

/-- `EchoChamberWarning`. -/
inductive EchoChamberWarning where
  | SourceHomogenization
  | SelfCitationRising
  | UngroundedConfidence
deriving DecidableEq

/-- `EchoChamberViolation`. -/
inductive EchoChamberViolation where
  | ConfidenceDivergenceCorrelation
  | SourceDiversityCollapse
  | SelfCitationDominance
  | EpistemicClosure
deriving DecidableEq

/-- `EchoChamberVerdict`. -/
inductive EchoChamberVerdict where
  | Healthy
  | Warning (w : EchoChamberWarning)
  | EpistemicSolipsism (v : EchoChamberViolation)
deriving DecidableEq

/-- `EchoChamberDetector` state.  The `VecDeque`s become lists (front
at the head), the `HashSet` of window sources becomes a
duplicate-free list. -/
structure EchoChamberDetector where
  ingestionLog : List IngestionEvent
  divergenceHistory : List ℚ
  confidenceHistory : List ℚ
  sourcesInWindow : List Nat
  currentHeight : Nat
  lastVerifiedHeight : Nat
  warningCount : Nat
deriving DecidableEq

/-- `EchoChamberDetector::new`. -/
def EchoChamberDetector.new : EchoChamberDetector :=
  { ingestionLog := []
    divergenceHistory := []
    confidenceHistory := []
    sourcesInWindow := []
    currentHeight := 0
    lastVerifiedHeight := 0
    warningCount := 0 }

/-- `EchoChamberDetector::record_ingestion`: insert the source, append
the event, and when the window overflows drop the oldest event —
removing its source from the window set if no remaining event cites
it. -/
def EchoChamberDetector.recordIngestion (d : EchoChamberDetector)
    (event : IngestionEvent) : EchoChamberDetector :=
  let sources :=
    if d.sourcesInWindow.contains event.sourceId then d.sourcesInWindow
    else d.sourcesInWindow ++ [event.sourceId]
  let log := d.ingestionLog ++ [event]
  if INGESTION_WINDOW_SIZE < log.length then
    match log with
    | [] => { d with ingestionLog := log, sourcesInWindow := sources }
    | oldEvent :: restLog =>
        let sourceStillPresent := restLog.any (fun e => e.sourceId = oldEvent.sourceId)
        let sources' :=
          if sourceStillPresent then sources
          else sources.filter (fun s => s ≠ oldEvent.sourceId)
        { d with ingestionLog := restLog, sourcesInWindow := sources' }
  else { d with ingestionLog := log, sourcesInWindow := sources }

/-- `EchoChamberDetector::record_epistemic_state`. -/
def EchoChamberDetector.recordEpistemicState (d : EchoChamberDetector)
    (confidence oracleDivergence : ℚ) : EchoChamberDetector :=
  let conf := d.confidenceHistory ++ [confidence]
  let div := d.divergenceHistory ++ [oracleDivergence]
  { d with
    confidenceHistory := if INGESTION_WINDOW_SIZE < conf.length then conf.drop 1 else conf
    divergenceHistory := if INGESTION_WINDOW_SIZE < div.length then div.drop 1 else div }

/-- `EchoChamberDetector::compute_divergence_acceleration`: second
difference of the divergence history (0 when fewer than 3 readings). -/
def EchoChamberDetector.computeDivergenceAcceleration
    (d : EchoChamberDetector) : ℚ :=
  if d.divergenceHistory.length < 3 then 0
  else
    let history := d.divergenceHistory
    let n := history.length
    let velocityNow := history.getD (n - 1) 0 - history.getD (n - 2) 0
    let velocityPrev := history.getD (n - 2) 0 - history.getD (n - 3) 0
    velocityNow - velocityPrev

/-- `EchoChamberDetector::compute_metrics`. -/
def EchoChamberDetector.computeMetrics (d : EchoChamberDetector) :
    EpistemicMetrics :=
  let totalIngestions := d.ingestionLog.length
  if totalIngestions = 0 then EpistemicMetrics.default
  else
    let sourceDiversity : ℚ := (d.sourcesInWindow.length : ℚ) / (totalIngestions : ℚ)
    let selfCitations := (d.ingestionLog.filter (fun e => e.isSelfCitation)).length
    let selfCiteFrac : ℚ := (selfCitations : ℚ) / (totalIngestions : ℚ)
    let confidence := (d.confidenceHistory.getLast?).getD 0
    let oracleDivergence := (d.divergenceHistory.getLast?).getD 0
    { confidence := confidence
      oracleDivergence := oracleDivergence
      sourceDiversity := sourceDiversity
      selfCiteFrac := selfCiteFrac
      divergenceAcceleration := d.computeDivergenceAcceleration }

/-- The comparison `compute_confidence_divergence_correlation() > 0.50`
from `detect`, translated to exact arithmetic.  The source computes a
Pearson correlation `numerator / sqrt(D)` (returning 0.0 when either
history holds fewer than 10 readings or the denominator is zero) and
compares it against 0.50; over the exact rationals `D ≥ 0` always and
`numerator / sqrt(D) > 1/2  ↔  0 < numerator ∧ D < 4·numerator²`, so
the square-root is eliminated by squaring. -/
def correlationExceedsThreshold (conf div : List ℚ) : Bool :=
  if conf.length < 10 ∨ div.length < 10 then false
  else
    let m := min conf.length div.length
    let n : ℚ := (m : ℚ)
    let c := conf.take m
    let dv := div.take m
    let sumConf := c.sum
    let sumDiv := dv.sum
    let sumConfSq := (c.map (fun x => x * x)).sum
    let sumDivSq := (dv.map (fun x => x * x)).sum
    let sumConfDiv := ((conf.zip div).map (fun p => p.1 * p.2)).sum
    let numerator := n * sumConfDiv - sumConf * sumDiv
    let denomSq := (n * sumConfSq - sumConf * sumConf) * (n * sumDivSq - sumDiv * sumDiv)
    if denomSq ≤ 0 then false
    else decide (0 < numerator) && decide (denomSq < 4 * (numerator * numerator))

/-- The `sustained` test inside `detect`: the last ten divergence
readings are strictly increasing (each compared to its predecessor). -/
def sustainedDivergenceRise (d : EchoChamberDetector) : Bool :=
  let r := d.divergenceHistory.reverse
  ((r.take 10).zip (r.drop 1)).all (fun p => decide (p.2 < p.1))

/-- `EchoChamberDetector::detect`: critical violations first (in the
source's order), then warnings, else healthy. -/
def EchoChamberDetector.detect (d : EchoChamberDetector)
    (_blockHeight : Nat) : EchoChamberVerdict :=
  let metrics := d.computeMetrics
  if correlationExceedsThreshold d.confidenceHistory d.divergenceHistory then
    .EpistemicSolipsism .ConfidenceDivergenceCorrelation
  else if metrics.sourceDiversity < SOURCE_DIVERSITY_THRESHOLD then
    .EpistemicSolipsism .SourceDiversityCollapse
  else if SELF_CITATION_THRESHOLD < metrics.selfCiteFrac then
    .EpistemicSolipsism .SelfCitationDominance
  else if DIVERGENCE_ACCELERATION_THRESHOLD < metrics.divergenceAcceleration ∧
      sustainedDivergenceRise d = true ∧ metrics.sourceDiversity < 1 / 2 then
    .EpistemicSolipsism .EpistemicClosure
  else if metrics.sourceDiversity < 1 / 2 then
    .Warning .SourceHomogenization
  else if 1 / 4 < metrics.selfCiteFrac then
    .Warning .SelfCitationRising
  else if 9 / 10 < metrics.confidence ∧ 1 / 20 < metrics.oracleDivergence then
    .Warning .UngroundedConfidence
  else .Healthy

/-- Run a sequence of `record_epistemic_state` calls
(confidence, divergence pairs). -/
def runEpistemicReadings (d : EchoChamberDetector) :
    List (ℚ × ℚ) → EchoChamberDetector
  | [] => d
  | r :: rest => runEpistemicReadings (d.recordEpistemicState r.1 r.2) rest

end Row12

-- ============================================================================
-- ST MICHAEL Resilience Layer (src/st_michael_resilience.rs)
-- ============================================================================

namespace Resilience

/-- One past the largest `u32`; the watchdog's day counters are `u32`
and a wrapping increment is `% u32Size`. -/
def u32Size : Nat := 2 ^ 32

/-- `HealthState`. -/
inductive HealthState where
  | Green
  | Amber
  | Red
deriving DecidableEq

/-- `MemberHealthMetrics` (all `f32` scores modelled as `ℚ`). -/
structure MemberHealthMetrics where
  memberId : Nat
  daysAbsent : Nat
  avgResponseLatencyMs : Nat
  voteEntropy : ℚ
  freezeBias : ℚ
  loadIndex : ℚ
  stressSignal : ℚ
  noShowStreak : Nat
  abstentionRate : ℚ
  circadianAnomaly : ℚ
deriving DecidableEq

/-- `MemberHealthMetrics::health_score`: 1.0 minus eight weighted
penalties, clamped to [0, 1].  (The source computes a
`circadian_penalty` but does not subtract it; the embedding mirrors
that.) -/
def MemberHealthMetrics.healthScore (m : MemberHealthMetrics) : ℚ :=
  let absencePenalty := min ((m.daysAbsent : ℚ) / 30) 1
  let latencyPenalty := min ((m.avgResponseLatencyMs : ℚ) / 86400000) 1
  let streakPenalty := min ((m.noShowStreak : ℚ) / 7) 1
  let score := 1
    - absencePenalty * (15 / 100)
    - latencyPenalty * (5 / 100)
    - (1 - m.voteEntropy) * (10 / 100)
    - m.freezeBias * (20 / 100)
    - m.loadIndex * (15 / 100)
    - m.stressSignal * (20 / 100)
    - streakPenalty * (10 / 100)
    - m.abstentionRate * (5 / 100)
  max 0 (min score 1)

/-- `MemberHealthMetrics::shows_burnout`. -/
def MemberHealthMetrics.showsBurnout (m : MemberHealthMetrics) : Bool :=
  decide ((8 : ℚ) / 10 < m.loadIndex) || decide ((7 : ℚ) / 10 < m.stressSignal) ||
  decide (14 < m.daysAbsent) || decide (5 < m.noShowStreak)

/-- `MemberHealthMetrics::shows_pressure_signs`. -/
def MemberHealthMetrics.showsPressureSigns (m : MemberHealthMetrics) : Bool :=
  decide ((6 : ℚ) / 10 < m.stressSignal) && decide ((5 : ℚ) / 10 < m.freezeBias) &&
  decide (m.voteEntropy < (3 : ℚ) / 10)

/-- `compute_group_entropy`: average of individual vote entropies. -/
def computeGroupEntropy (members : List MemberHealthMetrics) : ℚ :=
  if members.isEmpty then 0
  else (members.map (fun m => m.voteEntropy)).sum / (members.length : ℚ)

/-- `compute_quorum_health_score`. -/
def computeQuorumHealthScore (members : List MemberHealthMetrics)
    (chaosLevel : ℚ) : ℚ :=
  if members.isEmpty then 0
  else
    let avgMemberScore := (members.map (fun m => m.healthScore)).sum / (members.length : ℚ)
    let groupEntropy := computeGroupEntropy members
    let entropyChaosPenalty :=
      if (6 : ℚ) / 10 < chaosLevel ∧ groupEntropy < (3 : ℚ) / 10 then
        (2 / 10) * (1 - groupEntropy) * chaosLevel
      else 0
    let stressCount := (members.filter (fun m => (1 : ℚ) / 2 < m.stressSignal)).length
    let stressPenalty := ((stressCount : ℚ) / (members.length : ℚ)) * (15 / 100)
    let avgFreezeBias := (members.map (fun m => m.freezeBias)).sum / (members.length : ℚ)
    let freezePenalty :=
      if (4 : ℚ) / 10 < avgFreezeBias then (avgFreezeBias - 4 / 10) * (3 / 10) else 0
    max 0 (min (avgMemberScore - entropyChaosPenalty - stressPenalty - freezePenalty) 1)

/-- `classify_health_state`. -/
def classifyHealthState (score chaosLevel groupEntropy : ℚ) : HealthState :=
  if (7 : ℚ) / 10 < chaosLevel ∧ groupEntropy < (2 : ℚ) / 10 then .Red
  else if (7 : ℚ) / 10 ≤ score then .Green
  else if (4 : ℚ) / 10 ≤ score then .Amber
  else .Red

/-- `QuorumHealthSnapshot`. -/
structure QuorumHealthSnapshot where
  height : Nat
  timestampUtc : Int
  chaosLevel : ℚ
  memberMetrics : List MemberHealthMetrics
  groupVoteEntropy : ℚ
  healthState : HealthState
  quorumHealthScore : ℚ
deriving DecidableEq

/-- `QuorumHealthSnapshot::new`. -/
def QuorumHealthSnapshot.new (height : Nat) (timestampUtc : Int)
    (chaosLevel : ℚ) (memberMetrics : List MemberHealthMetrics) :
    QuorumHealthSnapshot :=
  let quorumHealthScore := computeQuorumHealthScore memberMetrics chaosLevel
  let groupVoteEntropy := computeGroupEntropy memberMetrics
  { height := height
    timestampUtc := timestampUtc
    chaosLevel := chaosLevel
    memberMetrics := memberMetrics
    groupVoteEntropy := groupVoteEntropy
    healthState := classifyHealthState quorumHealthScore chaosLevel groupVoteEntropy
    quorumHealthScore := quorumHealthScore }

/-- `QuorumHealthSnapshot::burnout_count`. -/
def QuorumHealthSnapshot.burnoutCount (s : QuorumHealthSnapshot) : Nat :=
  (s.memberMetrics.filter (fun m => m.showsBurnout)).length

/-- `ResiliencePolicy`. -/
structure ResiliencePolicy where
  amberThreshold : ℚ
  redThreshold : ℚ
  maxContinuousRedDays : Nat
  recoveryDaysRequired : Nat
  minRotationCount : Nat
  sabbaticalLoadThreshold : ℚ
deriving DecidableEq

/-- `ResiliencePolicy::default()`. -/
def ResiliencePolicy.default : ResiliencePolicy :=
  { amberThreshold := 7 / 10
    redThreshold := 4 / 10
    maxContinuousRedDays := 90
    recoveryDaysRequired := 30
    minRotationCount := 2
    sabbaticalLoadThreshold := 85 / 100 }

/-- `AuditReason`. -/
inductive AuditReason where
  | SustainedRed
  | EntropyCollapse
  | BurnoutDetected
  | FreezeBiasSpike
  | ScheduledPeriodic
deriving DecidableEq

/-- `ResilienceDirective`. -/
inductive ResilienceDirective where
  | EnforceRotation (minCount : Nat)
  | MandatorySabbatical (memberIds : List Nat) (days : Nat)
  | ExternalAudit (reason : AuditReason)
  | QuorumExpansion (additionalSeats : Nat)
  | FreezePowers
  | RestorePowers
  | NoAction
deriving DecidableEq

/-- `ResilienceAction`: watchdog output.  The `rationale` field (a
formatted human-readable log string) is not modelled. -/
structure ResilienceAction where
  height : Nat
  state : HealthState
  score : ℚ
  directives : List ResilienceDirective
deriving DecidableEq

/-- `ResilienceWatchdog` state.  The sabbatical `HashMap` becomes an
association list member-id → days-remaining. -/
structure ResilienceWatchdog where
  policy : ResiliencePolicy
  snapshots : List QuorumHealthSnapshot
  continuousRedDays : Nat
  daysSinceRed : Nat
  freezePowersActive : Bool
  freezePowersActivatedAt : Option Nat
  sabbaticalMembers : List (Nat × Nat)
deriving DecidableEq

/-- `ResilienceWatchdog::new`. -/
def ResilienceWatchdog.new (policy : ResiliencePolicy) : ResilienceWatchdog :=
  { policy := policy
    snapshots := []
    continuousRedDays := 0
    daysSinceRed := 0
    freezePowersActive := false
    freezePowersActivatedAt := none
    sabbaticalMembers := [] }

/-- `ResilienceWatchdog::determine_audit_reason` (priority order from
the source). -/
def ResilienceWatchdog.determineAuditReason (w : ResilienceWatchdog)
    (snapshot : QuorumHealthSnapshot) : AuditReason :=
  if w.policy.maxContinuousRedDays ≤ w.continuousRedDays then .SustainedRed
  else if (6 : ℚ) / 10 < snapshot.chaosLevel ∧
      snapshot.groupVoteEntropy < (25 : ℚ) / 100 then .EntropyCollapse
  else if 3 ≤ snapshot.burnoutCount then .BurnoutDetected
  else
    let avgFreezeBias :=
      (snapshot.memberMetrics.map (fun m => m.freezeBias)).sum /
        ((max snapshot.memberMetrics.length 1 : Nat) : ℚ)
    if (6 : ℚ) / 10 < avgFreezeBias then .FreezeBiasSpike
    else .ScheduledPeriodic

/-- `ResilienceWatchdog::tick_sabbaticals`: decrement every positive
counter, then drop the entries that reached zero. -/
def tickSabbaticals (l : List (Nat × Nat)) : List (Nat × Nat) :=
  (l.map (fun p => (p.1, p.2 - 1))).filter (fun p => p.2 ≠ 0)

/-- `ResilienceWatchdog::evaluate`: update the streak counters, issue
the state-dependent directives (latching or lifting `FreezePowers`),
store the snapshot in the 365-entry ring, and tick sabbaticals. -/
def ResilienceWatchdog.evaluate (w : ResilienceWatchdog)
    (snapshot : QuorumHealthSnapshot) : ResilienceWatchdog × ResilienceAction :=
  let height := snapshot.height
  let state := snapshot.healthState
  let score := snapshot.quorumHealthScore
  let w1 :=
    match state with
    | .Red => { w with continuousRedDays := (w.continuousRedDays + 1) % u32Size
                       daysSinceRed := 0 }
    | _ => { w with continuousRedDays := 0
                    daysSinceRed := (w.daysSinceRed + 1) % u32Size }
  let (directives, w2) :=
    match state with
    | .Green =>
        if w1.freezePowersActive ∧ w1.policy.recoveryDaysRequired ≤ w1.daysSinceRed then
          ([ResilienceDirective.RestorePowers],
           { w1 with freezePowersActive := false, freezePowersActivatedAt := none })
        else ([ResilienceDirective.NoAction], w1)
    | .Amber =>
        let burnoutMembers :=
          (snapshot.memberMetrics.filter
            (fun m : MemberHealthMetrics => m.showsBurnout)).map
            (fun m : MemberHealthMetrics => m.memberId)
        ([ResilienceDirective.EnforceRotation w1.policy.minRotationCount] ++
         (if burnoutMembers.isEmpty then []
          else [ResilienceDirective.MandatorySabbatical burnoutMembers 14]), w1)
    | .Red =>
        let stressedMembers :=
          (snapshot.memberMetrics.filter
            (fun m : MemberHealthMetrics =>
              decide ((1 : ℚ) / 2 < m.stressSignal) || m.showsBurnout)).map
            (fun m : MemberHealthMetrics => m.memberId)
        let ds :=
          (if stressedMembers.isEmpty then []
           else [ResilienceDirective.MandatorySabbatical stressedMembers 30]) ++
          [ResilienceDirective.ExternalAudit (w1.determineAuditReason snapshot)] ++
          (if 3 ≤ stressedMembers.length then [ResilienceDirective.QuorumExpansion 2]
           else [])
        if w1.policy.maxContinuousRedDays ≤ w1.continuousRedDays ∧
            ¬w1.freezePowersActive then
          (ds ++ [ResilienceDirective.FreezePowers],
           { w1 with freezePowersActive := true
                     freezePowersActivatedAt := some height })
        else (ds, w1)
  let storedSnapshots :=
    let pushed := w2.snapshots ++ [snapshot]
    if 365 < pushed.length then pushed.drop 1 else pushed
  let w3 := { w2 with snapshots := storedSnapshots
                      sabbaticalMembers := tickSabbaticals w2.sabbaticalMembers }
  (w3, { height := height, state := state, score := score, directives := directives })

/-- `ResilienceWatchdog::is_on_sabbatical`. -/
def ResilienceWatchdog.isOnSabbatical (w : ResilienceWatchdog)
    (memberId : Nat) : Bool :=
  w.sabbaticalMembers.any (fun p => p.1 = memberId)

/-- `ResilienceBlockReason`. -/
inductive ResilienceBlockReason where
  | FreezePowersActive
  | MemberOnSabbatical
  | InsufficientQuorum
deriving DecidableEq

/-- `ResiliencePass`. -/
structure ResiliencePass where
  healthState : HealthState
  score : ℚ
deriving DecidableEq

/-- `ResilienceBlock`. -/
structure ResilienceBlock where
  reason : ResilienceBlockReason
  healthState : HealthState
  score : ℚ
deriving DecidableEq

/-- `check_row15_proposal_allowed`. -/
def checkRow15ProposalAllowed (w : ResilienceWatchdog) :
    Except ResilienceBlock ResiliencePass :=
  if w.freezePowersActive then
    .error { reason := .FreezePowersActive, healthState := .Red, score := 0 }
  else
    match w.snapshots.getLast? with
    | some snapshot =>
        .ok { healthState := snapshot.healthState, score := snapshot.quorumHealthScore }
    | none => .ok { healthState := .Green, score := 1 }

/-- `check_member_can_vote`. -/
def checkMemberCanVote (w : ResilienceWatchdog) (memberId : Nat) :
    Except ResilienceBlock ResiliencePass :=
  if w.isOnSabbatical memberId then
    .error { reason := .MemberOnSabbatical
             healthState := ((w.snapshots.getLast?).map (fun s => s.healthState)).getD .Amber
             score := ((w.snapshots.getLast?).map (fun s => s.quorumHealthScore)).getD (1 / 2) }
  else
    .ok { healthState := ((w.snapshots.getLast?).map (fun s => s.healthState)).getD .Green
          score := ((w.snapshots.getLast?).map (fun s => s.quorumHealthScore)).getD 1 }

/-- Feed a sequence of snapshots through `evaluate`, keeping the
watchdog. -/
def runSnapshots (w : ResilienceWatchdog) :
    List QuorumHealthSnapshot → ResilienceWatchdog
  | [] => w
  | s :: rest => runSnapshots (w.evaluate s).1 rest

/-- Length of the maximal all-`Red` suffix of a snapshot sequence
(what "N continuous Red days" means after processing the sequence). -/
def redStreak (ss : List QuorumHealthSnapshot) : Nat :=
  ss.foldl (fun acc s => if s.healthState = .Red then acc + 1 else 0) 0

/-- Length of the maximal `Red`-free suffix of a snapshot sequence. -/
def nonRedStreak (ss : List QuorumHealthSnapshot) : Nat :=
  ss.foldl (fun acc s => if s.healthState = .Red then 0 else acc + 1) 0

/-- `redStreak` generalized to a running accumulator. -/
def redStreakFrom (a : Nat) (ss : List QuorumHealthSnapshot) : Nat :=
  ss.foldl (fun acc s => if s.healthState = .Red then acc + 1 else 0) a

/-- `nonRedStreak` generalized to a running accumulator. -/
def nonRedStreakFrom (a : Nat) (ss : List QuorumHealthSnapshot) : Nat :=
  ss.foldl (fun acc s => if s.healthState = .Red then 0 else acc + 1) a

instance : Inhabited QuorumHealthSnapshot :=
  ⟨{ height := 0, timestampUtc := 0, chaosLevel := 0, memberMetrics := []
     groupVoteEntropy := 0, healthState := .Green, quorumHealthScore := 0 }⟩

end Resilience

-- ============================================================================
-- Concrete instances used to exercise the embeddings
-- ============================================================================

namespace Fixtures

/-- A fresh governor at containment level 4. -/
def gov0 : Governor.VerifierGovernor := Governor.VerifierGovernor.new 4

/-- `gov0` after registering circuit 1 (min containment 4) at height 1000. -/
def gov1 : Governor.VerifierGovernor :=
  (gov0.registerCircuit 1 0 0 4 1000).2

/-- An all-zero stand-in for the opaque SHA-256 digest function. -/
def sha0 : Governor.PublicInputs → Nat := fun _ => 0

/-- One accepted evaluation on `gov1`: inputs `[850000, 820000]`
(divergence 30000 ≤ 70000) at height 1001. -/
def govStep1 : Option (Governor.VerifierGovernor × Governor.ProofResult) :=
  Governor.VerifierGovernor.verifyAndRecord sha0 gov1 1 [850000, 820000] [] 1001

/-- The governor after the accepted evaluation. -/
def gov2 : Governor.VerifierGovernor :=
  match govStep1 with
  | some (g, _) => g
  | none => gov0

/-- `gov2` after `disable_circuit(1)`. -/
def gov3 : Governor.VerifierGovernor := (gov2.disableCircuit 1).2

/-- A further evaluation of circuit 1 at height 1002, now rejected with
`CircuitDisabled`. -/
def govStep2 : Option (Governor.VerifierGovernor × Governor.ProofResult) :=
  Governor.VerifierGovernor.verifyAndRecord sha0 gov3 1 [850000, 820000] [] 1002

/-- The governor after the rejected evaluation. -/
def gov4 : Governor.VerifierGovernor :=
  match govStep2 with
  | some (g, _) => g
  | none => gov0

/-- A live covenant: roots 1/2, genesis height 0, created at time 0. -/
def covLive : Row15.DeadMansCovenant := Row15.DeadMansCovenant.new 1 2 0 0

/-- A frozen covenant instance. -/
def covFrozen : Row15.DeadMansCovenant :=
  { state := .FrozenCanon
    lastCanonRoot := 3
    lastEvidenceRoot := 4
    lastAttestationHeight := 5
    lastAttestationTime := 6
    frozenEvent := none }

/-- An adjudication request with 5 signatures, created at time 0, with
a non-empty provenance proof. -/
def req5 : Row14.AdjudicationRequest :=
  { haltHeight := 100
    triggeringRow := 11
    haltEventHash := 0
    newEvidence :=
      { evidenceHash := 7
        evidenceData := [0]
        provenanceProof := { proof := [1], publicInputs := [2], vkHash := 0 }
        affectedOracles := [0] }
    adjudicatorSignatures :=
      [⟨0, [], 0⟩, ⟨1, [], 0⟩, ⟨2, [], 0⟩, ⟨3, [], 0⟩, ⟨4, [], 0⟩]
    createdAt := 0 }

/-- A halted adjudication-gate state holding `req5` as pending. -/
def stPending : Row14.StMichaelState :=
  { systemHalted := true
    lastHaltHeight := 100
    lastAdjudicationHeight := 0
    pendingRequest := some req5
    currentCanonRoot := 0
    adjudicatorSet := [0, 1, 2, 3, 4, 5, 6] }

/-- A resilience policy with 1-day freeze and recovery windows. -/
def pQuick : Resilience.ResiliencePolicy :=
  { Resilience.ResiliencePolicy.default with
    maxContinuousRedDays := 1
    recoveryDaysRequired := 1 }

/-- A snapshot classified `Red`. -/
def snapRed : Resilience.QuorumHealthSnapshot :=
  { height := 0, timestampUtc := 0, chaosLevel := 0, memberMetrics := []
    groupVoteEntropy := 0, healthState := .Red, quorumHealthScore := 0 }

/-- A one-day all-`Red` snapshot trace. -/
def ssRed1 : List Resilience.QuorumHealthSnapshot := [snapRed]

/-- A proof backend that accepts non-empty proofs and always matches
the VK hash. -/
def p7backend : Phase7.ProofBackend :=
  { verifyProof := fun _ _ proof => decide (proof ≠ [])
    vkHashMatches := fun _ => true }

/-- An enabled circuit handle requiring containment level 1. -/
def p7circuit : Phase7.CircuitHandle :=
  { id := 10, vkHashAnchored := 0, minContainmentLevel := 1, enabled := true }

/-- A Phase-7 verifier at containment level 5 on `p7circuit`. -/
def p7v : Phase7.Phase7Verifier := Phase7.Phase7Verifier.new p7backend p7circuit 5

/-- Valid Goodhart inputs (divergence 0.02, meta-divergence 0.03). -/
def p7good : Phase7.GoodhartPublicInputs :=
  { primaryScore := 85 / 100, shadowScore := 83 / 100, externalOracle := 80 / 100
    epochHeight := 1, agentId := 0 }

/-- Goodhart-failing inputs (divergence 0.20 > 0.07). -/
def p7bad : Phase7.GoodhartPublicInputs :=
  { primaryScore := 90 / 100, shadowScore := 70 / 100, externalOracle := 70 / 100
    epochHeight := 1, agentId := 0 }

/-- A Phase-7 verifier whose circuit has been disabled. -/
def p7vDisabled : Phase7.Phase7Verifier :=
  Phase7.Phase7Verifier.new p7backend { p7circuit with enabled := false } 5

end Fixtures

-- ============================================================================
-- Theorems
-- ============================================================================

/-- C10: Totality of streak accounting at height 0.
`VerifierGovernor::record_acceptance` computes
`last_height == block_height - 1` with an unchecked `u64` subtraction.
For every call with `block_height ≥ 1` the subtraction is well-defined
and the embedding returns `some` (total); a call with
`block_height = 0` takes the underflow branch (`none`), which is
unreachable under the precondition `block_height ≥ 1`. -/
theorem claim_C10_record_acceptance_total_above_zero :
    (∀ (g : Governor.VerifierGovernor) (cid h hash : Nat), 1 ≤ h →
      (g.recordAcceptance cid h hash).isSome = true) ∧
    (∀ (g : Governor.VerifierGovernor) (cid hash : Nat),
      g.recordAcceptance cid 0 hash = none) := by
  constructor
  · intro g cid h hash hh
    match h, hh with
    | (k + 1), _ => rfl
  · intro g cid hash
    rfl

/-- C10 witness: the theorem applied to a fresh governor at height 1. -/
theorem claim_C10_witness :
    1 ≤ 1 ∧
    ((Governor.VerifierGovernor.new 4).recordAcceptance 0 1 0).isSome = true :=
  ⟨by decide,
   claim_C10_record_acceptance_total_above_zero.1
     (Governor.VerifierGovernor.new 4) 0 1 0 (by decide)⟩

/-- C4: Height-gap handling.  On an accepted evaluation at height
`h ≥ 1` (over a state whose stored last-accepted height, if any, is
`≥ 1` and whose streak counter has not saturated `u64`), the result is
an `Accept` (not an error), and the consecutive-pass counter becomes
`prev + 1` exactly when the new height is the last accepted height
plus one or this is the first acceptance for the circuit, and `1` (not
`0`) on any height gap. -/
theorem claim_C4_gap_resets_counter_to_one (g : Governor.VerifierGovernor)
    (cid : Governor.CircuitId) (h hash : Nat) (hh : 1 ≤ h)
    (hwf : ∀ l, g.state.lastAcceptedHeight cid = some l → 1 ≤ l)
    (hcnt : (g.state.consecutivePasses cid).getD 0 + 1 < Governor.u64Size) :
    ∃ g' r, g.recordAcceptance cid h hash = some (g', r) ∧
      r = Governor.ProofResult.Accept cid hash h
        (match g.state.lastAcceptedHeight cid with
         | none => (g.state.consecutivePasses cid).getD 0 + 1
         | some l => if h = l + 1 then (g.state.consecutivePasses cid).getD 0 + 1
                     else 1) ∧
      g'.state.consecutivePasses cid =
        some (match g.state.lastAcceptedHeight cid with
              | none => (g.state.consecutivePasses cid).getD 0 + 1
              | some l => if h = l + 1 then (g.state.consecutivePasses cid).getD 0 + 1
                          else 1) ∧
      g'.state.lastAcceptedHeight cid = some h := by
  match h, hh with
  | (k + 1), _ =>
    refine ⟨_, _, rfl, ?_⟩
    cases hlast : g.state.lastAcceptedHeight cid with
    | none =>
        simp [Governor.VerifierGovernor.recordAcceptance, hlast, Nat.mod_eq_of_lt hcnt]
    | some l =>
        have hl : 1 ≤ l := hwf l hlast
        have hiff : (l = k ∨ l = 0) ↔ (k + 1 = l + 1) := by omega
        simp only [Governor.VerifierGovernor.recordAcceptance, hlast, Option.getD_some,
          hiff, Nat.mod_eq_of_lt hcnt]
        split_ifs <;> simp

/-- C4 witness: the theorem applied to a fresh governor (first
acceptance) at height 5; the counter becomes 1. -/
theorem claim_C4_witness :
    1 ≤ 5 ∧
    (∃ g' r, (Governor.VerifierGovernor.new 4).recordAcceptance 0 5 9 = some (g', r) ∧
      r = Governor.ProofResult.Accept 0 9 5
        (match (Governor.VerifierGovernor.new 4).state.lastAcceptedHeight 0 with
         | none => ((Governor.VerifierGovernor.new 4).state.consecutivePasses 0).getD 0 + 1
         | some l =>
             if 5 = l + 1 then
               ((Governor.VerifierGovernor.new 4).state.consecutivePasses 0).getD 0 + 1
             else 1) ∧
      g'.state.consecutivePasses 0 =
        some (match (Governor.VerifierGovernor.new 4).state.lastAcceptedHeight 0 with
              | none => ((Governor.VerifierGovernor.new 4).state.consecutivePasses 0).getD 0 + 1
              | some l =>
                  if 5 = l + 1 then
                    ((Governor.VerifierGovernor.new 4).state.consecutivePasses 0).getD 0 + 1
                  else 1) ∧
      g'.state.lastAcceptedHeight 0 = some 5) :=
  ⟨by decide,
   claim_C4_gap_resets_counter_to_one (Governor.VerifierGovernor.new 4) 0 5 9
     (by decide)
     (fun l hl => by
       simp only [Governor.VerifierGovernor.new, Governor.GovernorState.new] at hl
       exact absurd hl (by simp))
     (by norm_num [Governor.VerifierGovernor.new, Governor.GovernorState.new,
       Governor.u64Size])⟩

/-- C1 (failing trace): `verify_and_record` does **not** reset the
consecutive-pass counter on every rejection.  Concretely: register
circuit 1, pass one valid proof at height 1001 (streak becomes 1),
disable the circuit, and evaluate again at height 1002: the call
returns `Reject(CircuitDisabled)` yet `get_consecutive_passes` still
reports 1, not 0.  (Only the `InvalidProof` path resets the counter,
despite the source's own comment "Reset consecutive pass counter on
ANY failure"; the Phase-7 verifier, by contrast, resets on every
halt.) -/
theorem claim_C1_rejection_leaves_streak_unreset :
    (Fixtures.govStep1.map Prod.snd =
      some (Governor.ProofResult.Accept 1 0 1001 1)) ∧
    (Fixtures.govStep2.map Prod.snd =
      some (Governor.ProofResult.Reject 1 0 1002 .CircuitDisabled)) ∧
    Fixtures.gov4.getConsecutivePasses 1 = 1 ∧ (1 : Nat) ≠ 0 := by
  refine ⟨?_, ?_, ?_, by decide⟩ <;> rfl

/-- `attempt_state_advance` returns exactly what the spec-ordered check
list dictates: the halt of the first failing check (carrying the
pre-call streak and, for the two divergence checks, the computed
divergence), or a permit with the saturating-incremented streak when
every check passes. -/
theorem attemptStateAdvance_spec (v : Phase7.Phase7Verifier) (h : Nat)
    (inputs : Phase7.GoodhartPublicInputs) (proof : Phase7.ProofBlob) :
    (v.attemptStateAdvance h inputs proof).1 =
      (match Phase7.specFirstFailing v inputs proof with
       | some reason =>
           Except.error
             { blockHeight := h
               circuitId := v.circuit.id
               reason := reason
               continuityStreakAtFailure := v.state.continuityStreak
               divergenceValue := Phase7.divergenceValueFor inputs reason }
       | none =>
           Except.ok
             { newStreak := min (v.state.continuityStreak + 1) Phase7.u32Max
               blockHeight := h }) := by
  cases hE : v.circuit.enabled
  · simp [Phase7.Phase7Verifier.attemptStateAdvance, Phase7.Phase7Verifier.halt,
      Phase7.specFirstFailing, Phase7.specCheckList, Phase7.divergenceValueFor, hE]
  · by_cases hC : v.containmentLevel < v.circuit.minContainmentLevel
    · simp [Phase7.Phase7Verifier.attemptStateAdvance, Phase7.Phase7Verifier.halt,
        Phase7.specFirstFailing, Phase7.specCheckList, Phase7.divergenceValueFor, hE, hC]
    · cases hV : v.backend.vkHashMatches v.circuit
      · simp [Phase7.Phase7Verifier.attemptStateAdvance, Phase7.Phase7Verifier.halt,
          Phase7.specFirstFailing, Phase7.specCheckList, Phase7.divergenceValueFor,
          hE, hC, hV]
      · by_cases hD : Phase7.DIVERGENCE_THRESHOLD < inputs.divergence
        · simp [Phase7.Phase7Verifier.attemptStateAdvance, Phase7.Phase7Verifier.halt,
            Phase7.specFirstFailing, Phase7.specCheckList, Phase7.divergenceValueFor,
            hE, hC, hV, hD]
        · by_cases hM : Phase7.META_DIVERGENCE_THRESHOLD < inputs.metaDivergence
          · simp [Phase7.Phase7Verifier.attemptStateAdvance, Phase7.Phase7Verifier.halt,
              Phase7.specFirstFailing, Phase7.specCheckList, Phase7.divergenceValueFor,
              hE, hC, hV, hD, hM]
          · cases hP : v.backend.verifyProof v.circuit inputs proof
            · simp [Phase7.Phase7Verifier.attemptStateAdvance, Phase7.Phase7Verifier.halt,
                Phase7.specFirstFailing, Phase7.specCheckList, Phase7.divergenceValueFor,
                hE, hC, hV, hD, hM, hP]
            · simp [Phase7.Phase7Verifier.attemptStateAdvance, Phase7.Phase7Verifier.halt,
                Phase7.specFirstFailing, Phase7.specCheckList, Phase7.divergenceValueFor,
                hE, hC, hV, hD, hM, hP]

/-- C2: The six admission checks run in the fixed order (circuit
enabled, containment, VK hash, 7% divergence, 12% meta-divergence,
backend proof verification); the call halts with the reason of the
first failing check — the outcome is fully determined by that first
failure, so no later check can influence it — and returns an
`AdvancePermit` exactly when all six checks pass. -/
theorem claim_C2_six_checks_fixed_order (v : Phase7.Phase7Verifier) (h : Nat)
    (inputs : Phase7.GoodhartPublicInputs) (proof : Phase7.ProofBlob) :
    ((v.attemptStateAdvance h inputs proof).1 =
      (match Phase7.specFirstFailing v inputs proof with
       | some reason =>
           Except.error
             { blockHeight := h
               circuitId := v.circuit.id
               reason := reason
               continuityStreakAtFailure := v.state.continuityStreak
               divergenceValue := Phase7.divergenceValueFor inputs reason }
       | none =>
           Except.ok
             { newStreak := min (v.state.continuityStreak + 1) Phase7.u32Max
               blockHeight := h })) ∧
    (∀ e, (v.attemptStateAdvance h inputs proof).1 = .error e →
      Phase7.specFirstFailing v inputs proof = some e.reason) ∧
    ((∃ p, (v.attemptStateAdvance h inputs proof).1 = .ok p) ↔
      Phase7.specFirstFailing v inputs proof = none) := by
  have hspec := attemptStateAdvance_spec v h inputs proof
  refine ⟨hspec, ?_, ?_⟩
  · intro e he
    rw [hspec] at he
    cases hF : Phase7.specFirstFailing v inputs proof with
    | none => rw [hF] at he; exact absurd he (by simp)
    | some reason =>
        rw [hF] at he
        simp only [Except.error.injEq] at he
        rw [← he]
  · constructor
    · rintro ⟨p, hp⟩
      rw [hspec] at hp
      cases hF : Phase7.specFirstFailing v inputs proof with
      | none => rfl
      | some reason => rw [hF] at hp; exact absurd hp (by simp)
    · intro hF
      rw [hspec, hF]
      exact ⟨_, rfl⟩

/-- C2 witness: on a disabled circuit the verifier halts with
`CircuitDisabled`, which is also the first failing check of the
spec-ordered list. -/
theorem claim_C2_witness :
    ((Fixtures.p7vDisabled.attemptStateAdvance 1 Fixtures.p7good [0]).1 =
      Except.error
        { blockHeight := 1
          circuitId := 10
          reason := .CircuitDisabled
          continuityStreakAtFailure := 0
          divergenceValue := none }) ∧
    Phase7.specFirstFailing Fixtures.p7vDisabled Fixtures.p7good [0] =
      some Phase7.HaltReason.CircuitDisabled := by
  have h1 : (Fixtures.p7vDisabled.attemptStateAdvance 1 Fixtures.p7good [0]).1 =
      Except.error
        { blockHeight := 1
          circuitId := 10
          reason := .CircuitDisabled
          continuityStreakAtFailure := 0
          divergenceValue := none } := rfl
  exact ⟨h1,
    (claim_C2_six_checks_fixed_order Fixtures.p7vDisabled 1 Fixtures.p7good [0]).2.1 _ h1⟩

/-- A frozen covenant is a fixed point of every covenant operation. -/
theorem frozen_covStep_fixed (c : Row15.DeadMansCovenant)
    (hc : c.state = .FrozenCanon) (op : Row15.CovOp) :
    Row15.covStep c op = c := by
  cases op with
  | probe h now =>
      simp [Row15.covStep, Row15.DeadMansCovenant.probeLiveness, hc]
  | attest canon evid h now =>
      simp [Row15.covStep, Row15.DeadMansCovenant.recordAttestation, hc]

/-- A frozen covenant stays fixed under any sequence of operations. -/
theorem frozen_runCovOps_fixed (c : Row15.DeadMansCovenant)
    (hc : c.state = .FrozenCanon) (ops : List Row15.CovOp) :
    Row15.runCovOps c ops = c := by
  induction ops with
  | nil => rfl
  | cons op rest ih =>
      show Row15.runCovOps (Row15.covStep c op) rest = c
      rw [frozen_covStep_fixed c hc op, ih]

/-- From `Live`, a liveness probe triggers (and freezes) exactly when
both the elapsed wall-clock time and the elapsed block height reach
their 5-year thresholds. -/
theorem probeLiveness_trigger_iff (c : Row15.DeadMansCovenant) (h now : Nat)
    (hc : c.state = .Live) :
    ((∃ ev, (c.probeLiveness h now).1 = .FrozenCanonTriggered ev) ↔
      (Row15.QUORUM_ABSENCE_THRESHOLD_SECS ≤ now - c.lastAttestationTime ∧
       Row15.QUORUM_ABSENCE_THRESHOLD_BLOCKS ≤ h - c.lastAttestationHeight)) ∧
    ((c.probeLiveness h now).2.state = .FrozenCanon ↔
      (Row15.QUORUM_ABSENCE_THRESHOLD_SECS ≤ now - c.lastAttestationTime ∧
       Row15.QUORUM_ABSENCE_THRESHOLD_BLOCKS ≤ h - c.lastAttestationHeight)) := by
  have hne : ¬(c.state = .FrozenCanon) := by rw [hc]; simp
  have hiff : ∀ p : Row15.QuorumLivenessProbe, p.thresholdExceeded = true ↔
      (Row15.QUORUM_ABSENCE_THRESHOLD_SECS ≤ p.probeTime - p.lastAttestation ∧
       Row15.QUORUM_ABSENCE_THRESHOLD_BLOCKS ≤ p.probeHeight - p.lastAttestationHeight) := by
    intro p
    simp [Row15.QuorumLivenessProbe.thresholdExceeded,
      Row15.QuorumLivenessProbe.timeSinceAttestation,
      Row15.QuorumLivenessProbe.blocksSinceAttestation]
  simp only [Row15.DeadMansCovenant.probeLiveness, if_neg hne]
  cases hT : ({ lastAttestation := c.lastAttestationTime
                lastAttestationHeight := c.lastAttestationHeight
                consecutiveFailures := 0
                probeTime := now
                probeHeight := h } : Row15.QuorumLivenessProbe).thresholdExceeded with
  | false =>
      have hnot : ¬(Row15.QUORUM_ABSENCE_THRESHOLD_SECS ≤ now - c.lastAttestationTime ∧
          Row15.QUORUM_ABSENCE_THRESHOLD_BLOCKS ≤ h - c.lastAttestationHeight) := by
        intro hcl
        have := (hiff { lastAttestation := c.lastAttestationTime
                        lastAttestationHeight := c.lastAttestationHeight
                        consecutiveFailures := 0
                        probeTime := now
                        probeHeight := h }).mpr hcl
        rw [hT] at this
        exact absurd this (by simp)
      refine ⟨⟨?_, fun hcl => absurd hcl hnot⟩, ⟨?_, fun hcl => absurd hcl hnot⟩⟩
      · rintro ⟨ev, hev⟩
        simp at hev
      · intro hst
        have hst' : c.state = Row15.StMichaelLifecycle.FrozenCanon := hst
        rw [hc] at hst'
        exact absurd hst' (by simp)
  | true =>
      have hprops := (hiff _).mp hT
      exact ⟨⟨fun _ => hprops, fun _ => ⟨_, rfl⟩⟩, ⟨fun _ => hprops, fun _ => rfl⟩⟩

/-- C3: Dead-Man's Covenant lifecycle.  (1) From `Live`,
`probe_liveness` triggers `FrozenCanon` exactly when **both** the
elapsed wall-clock time and the elapsed height reach the 5-year
thresholds (neither alone suffices), and the post-state is frozen
exactly then.  (2) From `FrozenCanon`, every probe returns
`AlreadyFrozen` (never a second `FrozenCanonTriggered`) and changes
nothing.  (3) From `FrozenCanon`, `record_attestation` always returns
the `CanonFrozen` error and leaves the whole state — in particular the
stored canon and evidence roots — unchanged.  (4) A frozen covenant is
unchanged by any sequence of probes and attestations.  (5) A probe
that returns `FrozenCanonTriggered` leaves the state frozen, so by
(2)/(4) the transition occurs at most once. -/
theorem claim_C3_covenant_freeze_once (c : Row15.DeadMansCovenant) :
    (∀ h now : Nat, c.state = .Live →
      ((∃ ev, (c.probeLiveness h now).1 = .FrozenCanonTriggered ev) ↔
        (Row15.QUORUM_ABSENCE_THRESHOLD_SECS ≤ now - c.lastAttestationTime ∧
         Row15.QUORUM_ABSENCE_THRESHOLD_BLOCKS ≤ h - c.lastAttestationHeight)) ∧
      ((c.probeLiveness h now).2.state = .FrozenCanon ↔
        (Row15.QUORUM_ABSENCE_THRESHOLD_SECS ≤ now - c.lastAttestationTime ∧
         Row15.QUORUM_ABSENCE_THRESHOLD_BLOCKS ≤ h - c.lastAttestationHeight))) ∧
    (∀ h now : Nat, c.state = .FrozenCanon →
      c.probeLiveness h now = (.AlreadyFrozen, c)) ∧
    (∀ canon evid height now : Nat, c.state = .FrozenCanon →
      c.recordAttestation canon evid height now =
        (.error (.CanonFrozen
          ((c.frozenEvent.map (fun e => e.freezeHeight)).getD 0)), c)) ∧
    (∀ ops : List Row15.CovOp, c.state = .FrozenCanon →
      Row15.runCovOps c ops = c) ∧
    (∀ h now : Nat, ∀ ev, (c.probeLiveness h now).1 = .FrozenCanonTriggered ev →
      (c.probeLiveness h now).2.state = .FrozenCanon) := by
  refine ⟨fun h now hc => probeLiveness_trigger_iff c h now hc, ?_,
    ?_, fun ops hc => frozen_runCovOps_fixed c hc ops, ?_⟩
  · intro h now hc
    simp [Row15.DeadMansCovenant.probeLiveness, hc]
  · intro canon evid height now hc
    simp [Row15.DeadMansCovenant.recordAttestation, hc]
  · intro h now ev hev
    by_cases hc : c.state = .FrozenCanon
    · simp [Row15.DeadMansCovenant.probeLiveness, hc]
    · simp only [Row15.DeadMansCovenant.probeLiveness, if_neg hc] at hev ⊢
      cases hT : ({ lastAttestation := c.lastAttestationTime
                    lastAttestationHeight := c.lastAttestationHeight
                    consecutiveFailures := 0
                    probeTime := now
                    probeHeight := h } : Row15.QuorumLivenessProbe).thresholdExceeded with
      | false => rw [hT] at hev; simp at hev
      | true => rfl

/-- C3 witness: the theorem applied to a live covenant at exactly the
5-year thresholds (the probe triggers) and to a frozen covenant (probe
returns `AlreadyFrozen`, attestation fails with `CanonFrozen`,
unchanged state in both cases). -/
theorem claim_C3_witness :
    Fixtures.covLive.state = .Live ∧
    (∃ ev, (Fixtures.covLive.probeLiveness Row15.QUORUM_ABSENCE_THRESHOLD_BLOCKS
        Row15.QUORUM_ABSENCE_THRESHOLD_SECS).1 = .FrozenCanonTriggered ev) ∧
    Fixtures.covFrozen.probeLiveness 1 2 = (.AlreadyFrozen, Fixtures.covFrozen) ∧
    Fixtures.covFrozen.recordAttestation 7 8 9 10 =
      (.error (.CanonFrozen
        ((Fixtures.covFrozen.frozenEvent.map (fun e => e.freezeHeight)).getD 0)),
       Fixtures.covFrozen) :=
  ⟨rfl,
   ((claim_C3_covenant_freeze_once Fixtures.covLive).1
       Row15.QUORUM_ABSENCE_THRESHOLD_BLOCKS Row15.QUORUM_ABSENCE_THRESHOLD_SECS
       rfl).1.mpr (by decide),
   (claim_C3_covenant_freeze_once Fixtures.covFrozen).2.1 1 2 rfl,
   (claim_C3_covenant_freeze_once Fixtures.covFrozen).2.2.1 7 8 9 10 rfl⟩

/-- C5: Adjudication finalize.  With a pending request: fewer than 5
signatures yields `QuorumNotMet{received, required: 5}`; otherwise an
elapsed time under 72 hours yields `CoolingPeriodActive{remaining}`;
otherwise a failing provenance proof yields
`EvidenceRejected(InvalidProvenanceProof)`; and only when all three
conditions hold does the call replace the canon root with the
deterministic combination of the prior root and the evidence hash,
clear the halted flag, clear the pending request, and return
`EvidenceAccepted` with `resume_height = current_height + 1`.  The
state is returned unchanged on every non-accepting outcome. -/
theorem claim_C5_finalize_outcomes (hashCombine : Nat → Nat → Nat)
    (st : Row14.StMichaelState) (h now : Nat) (r : Row14.AdjudicationRequest)
    (hp : st.pendingRequest = some r) :
    (r.adjudicatorSignatures.length < 5 →
      st.finalize hashCombine h now =
        (.QuorumNotMet r.adjudicatorSignatures.length 5, st)) ∧
    (5 ≤ r.adjudicatorSignatures.length → now - r.createdAt < Row14.COOLING_PERIOD →
      st.finalize hashCombine h now =
        (.CoolingPeriodActive (Row14.COOLING_PERIOD - (now - r.createdAt)), st)) ∧
    (5 ≤ r.adjudicatorSignatures.length → Row14.COOLING_PERIOD ≤ now - r.createdAt →
      Row14.verifyProvenanceProof r.newEvidence.provenanceProof = false →
      st.finalize hashCombine h now =
        (.EvidenceRejected .InvalidProvenanceProof, st)) ∧
    (5 ≤ r.adjudicatorSignatures.length → Row14.COOLING_PERIOD ≤ now - r.createdAt →
      Row14.verifyProvenanceProof r.newEvidence.provenanceProof = true →
      st.finalize hashCombine h now =
        (.EvidenceAccepted (hashCombine st.currentCanonRoot r.newEvidence.evidenceHash)
           (h + 1),
         { st with
           currentCanonRoot := hashCombine st.currentCanonRoot r.newEvidence.evidenceHash
           lastAdjudicationHeight := h
           systemHalted := false
           pendingRequest := none })) := by
  refine ⟨?_, ?_, ?_, ?_⟩
  · intro hq
    simp [Row14.StMichaelState.finalize, hp, hq, Row14.QUORUM_REQUIRED]
  · intro hq hcool
    have hq' : ¬(r.adjudicatorSignatures.length < Row14.QUORUM_REQUIRED) := by
      simp only [Row14.QUORUM_REQUIRED]; omega
    simp [Row14.StMichaelState.finalize, hp, hq', hcool]
  · intro hq hcool hv
    have hq' : ¬(r.adjudicatorSignatures.length < Row14.QUORUM_REQUIRED) := by
      simp only [Row14.QUORUM_REQUIRED]; omega
    have hcool' : ¬(now - r.createdAt < Row14.COOLING_PERIOD) := by omega
    simp [Row14.StMichaelState.finalize, hp, hq', hcool', hv]
  · intro hq hcool hv
    have hq' : ¬(r.adjudicatorSignatures.length < Row14.QUORUM_REQUIRED) := by
      simp only [Row14.QUORUM_REQUIRED]; omega
    have hcool' : ¬(now - r.createdAt < Row14.COOLING_PERIOD) := by omega
    simp [Row14.StMichaelState.finalize, hp, hq', hcool', hv]

/-- C5 witness: the theorem applied to a halted state holding a
5-signature request created at time 0, finalized at time 72 h with a
passing provenance proof — the accepting branch — plus the quorum
branch on the same request truncated to 3 signatures. -/
theorem claim_C5_witness :
    (Fixtures.stPending.pendingRequest = some Fixtures.req5 ∧
     Fixtures.stPending.finalize (fun a b => a + b + 1) 200 Row14.COOLING_PERIOD =
       (.EvidenceAccepted ((fun a b => a + b + 1) Fixtures.stPending.currentCanonRoot
           Fixtures.req5.newEvidence.evidenceHash) (200 + 1),
        { Fixtures.stPending with
          currentCanonRoot := (fun a b => a + b + 1) Fixtures.stPending.currentCanonRoot
            Fixtures.req5.newEvidence.evidenceHash
          lastAdjudicationHeight := 200
          systemHalted := false
          pendingRequest := none })) :=
  ⟨rfl,
   (claim_C5_finalize_outcomes (fun a b => a + b + 1) Fixtures.stPending 200
       Row14.COOLING_PERIOD Fixtures.req5 rfl).2.2.2
     (by decide) (by decide) (by decide)⟩

/-- C7: At-most-once key zeroization.  (1) `zeroize_hsm(i)` with
`i < 7` on a slot still `false` succeeds and flips that slot to
`true`.  (2) On a slot already `true` it returns `AlreadyZeroized(i)`
and leaves the slot array and the event log unchanged.  (3) An index
`≥ 7` fails with `InvalidHsmIndex(i)` and no state change.  (4) A slot
that is `true` stays `true` under any further sequence of
`zeroize_hsm` calls (no reversion).  (5) On a fresh controller the
first call for any `i < 7` succeeds. -/
theorem claim_C7_zeroize_at_most_once :
    (∀ (c : Row15.KeyZeroizationController) (i : Nat)
        (reason : Row15.ZeroizationReason) (height root : Nat),
      i < 7 → c.zeroizedHsms.getD i false = false →
      c.zeroizeHsm i reason height root =
        (.ok { height := height, reason := reason, hsmIndex := i
               preservedCanonRoot := root },
         { zeroizedHsms := c.zeroizedHsms.set i true
           events := c.events ++ [{ height := height, reason := reason, hsmIndex := i
                                    preservedCanonRoot := root }] }) ∧
      (c.zeroizedHsms.length = 7 →
        (c.zeroizedHsms.set i true).getD i false = true)) ∧
    (∀ (c : Row15.KeyZeroizationController) (i : Nat)
        (reason : Row15.ZeroizationReason) (height root : Nat),
      i < 7 → c.zeroizedHsms.getD i false = true →
      c.zeroizeHsm i reason height root = (.error (.AlreadyZeroized i), c)) ∧
    (∀ (c : Row15.KeyZeroizationController) (i : Nat)
        (reason : Row15.ZeroizationReason) (height root : Nat),
      7 ≤ i → c.zeroizeHsm i reason height root = (.error (.InvalidHsmIndex i), c)) ∧
    (∀ (c : Row15.KeyZeroizationController) (calls : List Row15.ZeroizeCall) (j : Nat),
      c.zeroizedHsms.getD j false = true →
      (Row15.runZeroizeCalls c calls).zeroizedHsms.getD j false = true) ∧
    (∀ (i : Nat) (reason : Row15.ZeroizationReason) (height root : Nat), i < 7 →
      ∃ ev, (Row15.KeyZeroizationController.new.zeroizeHsm i reason height root).1 =
        .ok ev) := by
  have hset : ∀ (l : List Bool) (i j : Nat), l.getD j false = true →
      (l.set i true).getD j false = true := by
    intro l i j hj
    rw [List.getD_eq_getElem?_getD] at hj ⊢
    by_cases hij : i = j
    · subst hij
      by_cases hlen : i < l.length
      · rw [List.getElem?_set_self hlen]
        rfl
      · rw [List.getElem?_eq_none (by omega)] at hj
        exact absurd hj (by simp)
    · rw [List.getElem?_set_ne hij]
      exact hj
  refine ⟨?_, ?_, ?_, ?_, ?_⟩
  · intro c i reason height root hilt hfalse
    have h7 : ¬(7 ≤ i) := by omega
    refine ⟨?_, ?_⟩
    · simp only [Row15.KeyZeroizationController.zeroizeHsm, if_neg h7, hfalse,
        Bool.false_eq_true, if_neg (by exact fun h => h)]
    · intro hlen
      have hi : i < (c.zeroizedHsms).length := by omega
      rw [List.getD_eq_getElem?_getD, List.getElem?_set_self hi]
      rfl
  · intro c i reason height root hilt htrue
    have h7 : ¬(7 ≤ i) := by omega
    simp only [Row15.KeyZeroizationController.zeroizeHsm, if_neg h7, htrue]
    simp
  · intro c i reason height root h7
    simp only [Row15.KeyZeroizationController.zeroizeHsm, if_pos h7]
  · intro c calls
    induction calls generalizing c with
    | nil => intro j hj; exact hj
    | cons z rest ih =>
        intro j hj
        show (Row15.runZeroizeCalls
          (c.zeroizeHsm z.hsmIndex z.reason z.height z.preservedCanonRoot).2
          rest).zeroizedHsms.getD j false = true
        apply ih
        by_cases h7 : 7 ≤ z.hsmIndex
        · simpa only [Row15.KeyZeroizationController.zeroizeHsm, if_pos h7] using hj
        · by_cases hz : c.zeroizedHsms.getD z.hsmIndex false = true
          · simpa only [Row15.KeyZeroizationController.zeroizeHsm, if_neg h7, hz,
              if_pos rfl] using hj
          · simp only [Bool.not_eq_true] at hz
            simp only [Row15.KeyZeroizationController.zeroizeHsm, if_neg h7, hz,
              Bool.false_eq_true, if_neg (by exact fun h => h)]
            exact hset _ _ _ hj
  · intro i reason height root hilt
    have h7 : ¬(7 ≤ i) := by omega
    have hfresh :
        (Row15.KeyZeroizationController.new).zeroizedHsms.getD i false = false := by
      show (List.replicate 7 false).getD i false = false
      rw [List.getD_eq_getElem?_getD, List.getElem?_replicate]
      split <;> rfl
    exact ⟨_, by
      simp only [Row15.KeyZeroizationController.zeroizeHsm, if_neg h7, hfresh,
        Bool.false_eq_true, if_neg (by exact fun h => h)]
      rfl⟩

/-- C7 witness: the theorem applied at slot 2 of a fresh controller
(first call succeeds) and at an out-of-range slot 9. -/
theorem claim_C7_witness :
    (2 < 7 ∧
     (∃ ev, (Row15.KeyZeroizationController.new.zeroizeHsm 2 .TamperDetected 5 1).1 =
       .ok ev)) ∧
    (7 ≤ 9 ∧
     Row15.KeyZeroizationController.new.zeroizeHsm 9 .DuressCode 5 1 =
       (.error (.InvalidHsmIndex 9), Row15.KeyZeroizationController.new)) :=
  ⟨⟨by decide, claim_C7_zeroize_at_most_once.2.2.2.2 2 .TamperDetected 5 1 (by decide)⟩,
   ⟨by decide, claim_C7_zeroize_at_most_once.2.2.1 Row15.KeyZeroizationController.new
      9 .DuressCode 5 1 (by decide)⟩⟩

/-- The pairwise loop of `AumannCircuit::verify` reports the first pair
(in loop order) whose distance exceeds epsilon, or consensus carrying
the running maximum folded over all pair distances. -/
theorem verifyLoop_spec (dist : List Nat → List Nat → Nat)
    (beliefs : List Row13.OracleBelief) (epsilon : Nat) :
    ∀ (pairs : List (Nat × Nat)) (acc : Nat),
    Row13.verifyLoop dist beliefs epsilon pairs acc =
      (match pairs.find? (fun p => decide (epsilon < Row13.pairDistance dist beliefs p)) with
       | some p =>
           Row13.AumannOutcome.Divergence p.1 p.2 (Row13.pairDistance dist beliefs p) epsilon
       | none =>
           Row13.AumannOutcome.Consensus beliefs.length
             ((pairs.map (Row13.pairDistance dist beliefs)).foldl max acc)) := by
  intro pairs
  induction pairs with
  | nil => intro acc; rfl
  | cons p rest ih =>
      intro acc
      by_cases hd : epsilon < Row13.pairDistance dist beliefs p
      · simp [Row13.verifyLoop, List.find?_cons, hd]
      · have hmax : (if Row13.pairDistance dist beliefs p > acc
            then Row13.pairDistance dist beliefs p else acc) =
            max acc (Row13.pairDistance dist beliefs p) := by
          split <;> omega
        have hdec : (decide (epsilon < Row13.pairDistance dist beliefs p)) = false :=
          decide_eq_false hd
        simp only [Row13.verifyLoop, if_neg hd, hmax, ih, List.find?_cons, hdec,
          List.map_cons, List.foldl_cons]

/-- C6: Aumann verify trichotomy.  (1) Fewer than 2 beliefs yields
`InsufficientOracles{provided, required: 2}`.  (2) With ≥ 2 beliefs
the result is `Divergence{oracle_i, oracle_j, distance, threshold}`
for the first pair in the nested-loop order whose distance exceeds
epsilon, and `Consensus{oracle_count, max_divergence}` with the
maximum pairwise distance when no pair does.  (3) Under the default
Hamming metric and default epsilon 70000, two beliefs differing in
exactly 1 bit yield `Consensus` (distance 3906), and (4) two beliefs
differing in 18 or more bits yield `Divergence` with distance
exceeding 70000. -/
theorem claim_C6_aumann_verify_trichotomy :
    (∀ (dist : List Nat → List Nat → Nat) (epsilon : Nat) (input : Row13.AumannInput),
      input.beliefs.length < 2 →
      Row13.verify dist epsilon input =
        .InsufficientOracles input.beliefs.length 2) ∧
    (∀ (dist : List Nat → List Nat → Nat) (epsilon : Nat) (input : Row13.AumannInput),
      2 ≤ input.beliefs.length →
      Row13.verify dist epsilon input =
        (match (Row13.orderedPairs input.beliefs.length).find?
            (fun p => decide (epsilon < Row13.pairDistance dist input.beliefs p)) with
         | some p =>
             Row13.AumannOutcome.Divergence p.1 p.2
               (Row13.pairDistance dist input.beliefs p) epsilon
         | none =>
             Row13.AumannOutcome.Consensus input.beliefs.length
               (Row13.maxPairDistance dist input.beliefs
                 (Row13.orderedPairs input.beliefs.length)))) ∧
    (∀ (o1 o2 : Row13.OracleBelief) (root : List Nat) (h : Nat),
      Row13.hammingBits o1.beliefHash o2.beliefHash = 1 →
      Row13.verifyDefault ⟨root, h, [o1, o2]⟩ = .Consensus 2 3906) ∧
    (∀ (o1 o2 : Row13.OracleBelief) (root : List Nat) (h : Nat),
      18 ≤ Row13.hammingBits o1.beliefHash o2.beliefHash →
      Row13.verifyDefault ⟨root, h, [o1, o2]⟩ =
        .Divergence 0 1 (Row13.hammingDistance o1.beliefHash o2.beliefHash) 70000 ∧
      70000 < Row13.hammingDistance o1.beliefHash o2.beliefHash) := by
  have hdist_eq : ∀ a b, Row13.hammingDistance a b = Row13.hammingBits a b * 3906 :=
    fun _ _ => rfl
  have hpair : ∀ (o1 o2 : Row13.OracleBelief),
      Row13.pairDistance Row13.hammingDistance [o1, o2] (0, 1) =
        Row13.hammingDistance o1.beliefHash o2.beliefHash := fun _ _ => rfl
  have hop2 : Row13.orderedPairs 2 = [(0, 1)] := rfl
  refine ⟨?_, ?_, ?_, ?_⟩
  · intro dist epsilon input hlt
    simp [Row13.verify, Row13.MIN_ORACLES, hlt]
  · intro dist epsilon input hge
    have hlt : ¬(input.beliefs.length < Row13.MIN_ORACLES) := by
      simp only [Row13.MIN_ORACLES]; omega
    simp only [Row13.verify, if_neg hlt]
    exact verifyLoop_spec dist input.beliefs epsilon _ 0
  · intro o1 o2 root h hbits
    have hd : Row13.hammingDistance o1.beliefHash o2.beliefHash = 3906 := by
      rw [hdist_eq, hbits]
    show Row13.verify Row13.hammingDistance Row13.EPSILON_AUMANN _ = _
    simp only [Row13.verify, Row13.MIN_ORACLES]
    rw [if_neg (by simp)]
    show Row13.verifyLoop _ _ _ (Row13.orderedPairs 2) 0 = _
    rw [hop2]
    simp only [Row13.verifyLoop, hpair, hd, Row13.EPSILON_AUMANN]
    rw [if_neg (by omega), if_pos (by omega)]
    rfl
  · intro o1 o2 root h hbits
    have hgt : 70000 < Row13.hammingDistance o1.beliefHash o2.beliefHash := by
      rw [hdist_eq]
      have h18 : 18 * 3906 ≤ Row13.hammingBits o1.beliefHash o2.beliefHash * 3906 :=
        Nat.mul_le_mul_right _ hbits
      omega
    refine ⟨?_, hgt⟩
    show Row13.verify Row13.hammingDistance Row13.EPSILON_AUMANN _ = _
    simp only [Row13.verify, Row13.MIN_ORACLES]
    rw [if_neg (by simp)]
    show Row13.verifyLoop _ _ _ (Row13.orderedPairs 2) 0 = _
    rw [hop2]
    simp only [Row13.verifyLoop, hpair, Row13.EPSILON_AUMANN]
    rw [if_pos (by omega)]

/-- C6 witness: the theorem applied to concrete belief hashes: `[1]`
vs `[0]` differ in 1 bit (consensus at distance 3906), and
`[255, 255, 3]` vs `[0, 0, 0]` differ in 18 bits (divergence above
70000). -/
theorem claim_C6_witness :
    (Row13.hammingBits [1] [0] = 1 ∧
     Row13.verifyDefault ⟨[], 5, [⟨1, [], [1], []⟩, ⟨2, [], [0], []⟩]⟩ =
       .Consensus 2 3906) ∧
    (18 ≤ Row13.hammingBits [255, 255, 3] [0, 0, 0] ∧
     Row13.verifyDefault ⟨[], 5, [⟨1, [], [255, 255, 3], []⟩, ⟨2, [], [0, 0, 0], []⟩]⟩ =
       .Divergence 0 1 (Row13.hammingDistance [255, 255, 3] [0, 0, 0]) 70000) :=
  ⟨⟨by decide,
    claim_C6_aumann_verify_trichotomy.2.2.1 ⟨1, [], [1], []⟩ ⟨2, [], [0], []⟩ [] 5
      (by decide)⟩,
   ⟨by decide,
    (claim_C6_aumann_verify_trichotomy.2.2.2 ⟨1, [], [255, 255, 3], []⟩
      ⟨2, [], [0, 0, 0], []⟩ [] 5 (by decide)).1⟩⟩

/-- `record_epistemic_state` never touches the ingestion log and grows
each history by at most one entry per call. -/
theorem runEpistemicReadings_log_lengths (rs : List (ℚ × ℚ)) :
    ∀ d : Row12.EchoChamberDetector,
      (Row12.runEpistemicReadings d rs).ingestionLog = d.ingestionLog ∧
      (Row12.runEpistemicReadings d rs).confidenceHistory.length ≤
        d.confidenceHistory.length + rs.length ∧
      (Row12.runEpistemicReadings d rs).divergenceHistory.length ≤
        d.divergenceHistory.length + rs.length := by
  induction rs with
  | nil =>
      intro d
      rw [show ∀ e : Row12.EchoChamberDetector,
        Row12.runEpistemicReadings e [] = e from fun _ => rfl]
      exact ⟨rfl, by simp, by simp⟩
  | cons r rest ih =>
      intro d
      rw [show Row12.runEpistemicReadings d (r :: rest) =
        Row12.runEpistemicReadings (d.recordEpistemicState r.1 r.2) rest from rfl]
      have hstep := ih (d.recordEpistemicState r.1 r.2)
      have hconf : (d.recordEpistemicState r.1 r.2).confidenceHistory.length ≤
          d.confidenceHistory.length + 1 := by
        simp only [Row12.EchoChamberDetector.recordEpistemicState]
        split <;> simp
      have hdiv : (d.recordEpistemicState r.1 r.2).divergenceHistory.length ≤
          d.divergenceHistory.length + 1 := by
        simp only [Row12.EchoChamberDetector.recordEpistemicState]
        split <;> simp
      refine ⟨hstep.1.trans rfl, ?_, ?_⟩
      · have := hstep.2.1
        simp only [List.length_cons]
        omega
      · have := hstep.2.2
        simp only [List.length_cons]
        omega

/-- C9: Empty-detector edge case.  A freshly constructed
`EchoChamberDetector` given no ingestion events and fewer than 10
epistemic-state readings reports
`EpistemicSolipsism(SourceDiversityCollapse)` — not `Healthy` —
because `compute_metrics` returns the default metrics with
`source_diversity = 0.0 < 0.30`, the first check that can fire when
the correlation check is disabled by the short histories. -/
theorem claim_C9_empty_detector_reports_collapse (rs : List (ℚ × ℚ))
    (height : Nat) (hlen : rs.length < 10) :
    (Row12.runEpistemicReadings Row12.EchoChamberDetector.new rs).detect height =
      .EpistemicSolipsism .SourceDiversityCollapse := by
  obtain ⟨hlog, hconf, hdiv⟩ :=
    runEpistemicReadings_log_lengths rs Row12.EchoChamberDetector.new
  have hlog' : (Row12.runEpistemicReadings Row12.EchoChamberDetector.new
      rs).ingestionLog = [] := hlog
  have hconf' : (Row12.runEpistemicReadings Row12.EchoChamberDetector.new
      rs).confidenceHistory.length < 10 := by
    have hz : (Row12.EchoChamberDetector.new).confidenceHistory.length = 0 := rfl
    omega
  have hmet : (Row12.runEpistemicReadings Row12.EchoChamberDetector.new
      rs).computeMetrics = Row12.EpistemicMetrics.default := by
    simp [Row12.EchoChamberDetector.computeMetrics, hlog']
  have hcorr : Row12.correlationExceedsThreshold
      (Row12.runEpistemicReadings Row12.EchoChamberDetector.new rs).confidenceHistory
      (Row12.runEpistemicReadings Row12.EchoChamberDetector.new rs).divergenceHistory =
      false := by
    simp only [Row12.correlationExceedsThreshold]
    rw [if_pos (Or.inl hconf')]
  simp only [Row12.EchoChamberDetector.detect, hmet, hcorr, Bool.false_eq_true,
    if_false]
  rw [if_pos]
  norm_num [Row12.EpistemicMetrics.default, Row12.SOURCE_DIVERSITY_THRESHOLD]

/-- C9 witness: the theorem applied to the fresh detector with zero
readings. -/
theorem claim_C9_witness :
    ([] : List (ℚ × ℚ)).length < 10 ∧
    (Row12.runEpistemicReadings Row12.EchoChamberDetector.new []).detect 0 =
      .EpistemicSolipsism .SourceDiversityCollapse :=
  ⟨by decide, claim_C9_empty_detector_reports_collapse [] 0 (by decide)⟩
/-- One `evaluate` step updates the two day counters exactly as the
source does (increment-with-`u32`-wrap or reset) and never changes the
policy. -/
theorem eval_counters (w : Resilience.ResilienceWatchdog)
    (s : Resilience.QuorumHealthSnapshot) :
    ((w.evaluate s).1.continuousRedDays =
      if s.healthState = .Red then (w.continuousRedDays + 1) % Resilience.u32Size else 0) ∧
    ((w.evaluate s).1.daysSinceRed =
      if s.healthState = .Red then 0 else (w.daysSinceRed + 1) % Resilience.u32Size) ∧
    (w.evaluate s).1.policy = w.policy := by
  cases hs : s.healthState <;>
    simp [Resilience.ResilienceWatchdog.evaluate, hs] <;> split_ifs <;> simp

/-- `freeze_powers_active` can turn on only at a `Red` snapshot whose
post-increment continuous-Red counter reaches the policy maximum. -/
theorem eval_freeze_on (w : Resilience.ResilienceWatchdog)
    (s : Resilience.QuorumHealthSnapshot)
    (hoff : w.freezePowersActive = false)
    (hon : (w.evaluate s).1.freezePowersActive = true) :
    s.healthState = .Red ∧
    w.policy.maxContinuousRedDays ≤ (w.continuousRedDays + 1) % Resilience.u32Size := by
  cases hs : s.healthState
  case Green =>
    simp [Resilience.ResilienceWatchdog.evaluate, hs, hoff] at hon
  case Amber =>
    simp [Resilience.ResilienceWatchdog.evaluate, hs, hoff] at hon
  case Red =>
    refine ⟨rfl, ?_⟩
    by_cases hact : w.policy.maxContinuousRedDays ≤ (w.continuousRedDays + 1) % Resilience.u32Size
    · exact hact
    · exfalso
      simp [Resilience.ResilienceWatchdog.evaluate, hs, hoff, hact] at hon

/-- `freeze_powers_active` can turn off only at a `Green` snapshot whose
post-increment recovery counter reaches the required recovery days. -/
theorem eval_freeze_off (w : Resilience.ResilienceWatchdog)
    (s : Resilience.QuorumHealthSnapshot)
    (hon : w.freezePowersActive = true)
    (hoff : (w.evaluate s).1.freezePowersActive = false) :
    s.healthState = .Green ∧
    w.policy.recoveryDaysRequired ≤ (w.daysSinceRed + 1) % Resilience.u32Size := by
  cases hs : s.healthState
  case Amber =>
    simp [Resilience.ResilienceWatchdog.evaluate, hs, hon] at hoff
  case Red =>
    simp [Resilience.ResilienceWatchdog.evaluate, hs, hon] at hoff
  case Green =>
    refine ⟨rfl, ?_⟩
    by_cases hrec : w.policy.recoveryDaysRequired ≤ (w.daysSinceRed + 1) % Resilience.u32Size
    · exact hrec
    · exfalso
      simp [Resilience.ResilienceWatchdog.evaluate, hs, hon, hrec] at hoff

/-- Running a concatenated trace is running the pieces in order. -/
theorem runSnapshots_append (a b : List Resilience.QuorumHealthSnapshot) :
    ∀ w, Resilience.runSnapshots w (a ++ b) =
      Resilience.runSnapshots (Resilience.runSnapshots w a) b := by
  induction a with
  | nil => intro w; rfl
  | cons s rest ih => intro w; exact ih (w.evaluate s).1

/-- The running Red streak is bounded by its start plus the trace
length. -/
theorem redStreakFrom_le (ss : List Resilience.QuorumHealthSnapshot) :
    ∀ a, Resilience.redStreakFrom a ss ≤ a + ss.length := by
  induction ss with
  | nil => intro a; simp [Resilience.redStreakFrom]
  | cons s rest ih =>
      intro a
      simp only [Resilience.redStreakFrom, List.foldl_cons, List.length_cons] at ih ⊢
      split
      · have := ih (a + 1); omega
      · have := ih 0; omega

/-- After any trace (short enough for the `u32` counters not to wrap),
the watchdog's day counters equal the trace's maximal Red suffix and
maximal Red-free suffix lengths, and the policy is untouched. -/
theorem run_counters (ss : List Resilience.QuorumHealthSnapshot) :
    ∀ w : Resilience.ResilienceWatchdog,
    w.continuousRedDays + ss.length < Resilience.u32Size →
    w.daysSinceRed + ss.length < Resilience.u32Size →
    (Resilience.runSnapshots w ss).continuousRedDays =
      Resilience.redStreakFrom w.continuousRedDays ss ∧
    (Resilience.runSnapshots w ss).daysSinceRed =
      Resilience.nonRedStreakFrom w.daysSinceRed ss ∧
    (Resilience.runSnapshots w ss).policy = w.policy := by
  induction ss with
  | nil => intro w _ _; exact ⟨rfl, rfl, rfl⟩
  | cons s rest ih =>
      intro w hc hd
      simp only [List.length_cons] at hc hd
      obtain ⟨h1, h2, h3⟩ := eval_counters w s
      by_cases hr : s.healthState = .Red
      · have h1' : (w.evaluate s).1.continuousRedDays = w.continuousRedDays + 1 := by
          rw [h1, if_pos hr, Nat.mod_eq_of_lt (by omega)]
        have h2' : (w.evaluate s).1.daysSinceRed = 0 := by rw [h2, if_pos hr]
        have hstep := ih (w.evaluate s).1 (by rw [h1']; omega) (by rw [h2']; omega)
        refine ⟨?_, ?_, ?_⟩
        · show (Resilience.runSnapshots (w.evaluate s).1 rest).continuousRedDays = _
          rw [hstep.1, h1']
          simp only [Resilience.redStreakFrom, List.foldl_cons, if_pos hr]
        · show (Resilience.runSnapshots (w.evaluate s).1 rest).daysSinceRed = _
          rw [hstep.2.1, h2']
          simp only [Resilience.nonRedStreakFrom, List.foldl_cons, if_pos hr]
        · show (Resilience.runSnapshots (w.evaluate s).1 rest).policy = _
          rw [hstep.2.2, h3]
      · have h1' : (w.evaluate s).1.continuousRedDays = 0 := by rw [h1, if_neg hr]
        have h2' : (w.evaluate s).1.daysSinceRed = w.daysSinceRed + 1 := by
          rw [h2, if_neg hr, Nat.mod_eq_of_lt (by omega)]
        have hstep := ih (w.evaluate s).1 (by rw [h1']; omega) (by rw [h2']; omega)
        refine ⟨?_, ?_, ?_⟩
        · show (Resilience.runSnapshots (w.evaluate s).1 rest).continuousRedDays = _
          rw [hstep.1, h1']
          simp only [Resilience.redStreakFrom, List.foldl_cons, if_neg hr]
        · show (Resilience.runSnapshots (w.evaluate s).1 rest).daysSinceRed = _
          rw [hstep.2.1, h2']
          simp only [Resilience.nonRedStreakFrom, List.foldl_cons, if_neg hr]
        · show (Resilience.runSnapshots (w.evaluate s).1 rest).policy = _
          rw [hstep.2.2, h3]

/-- The running non-Red streak is bounded by its start plus the trace
length. -/
theorem nonRedStreakFrom_le (ss : List Resilience.QuorumHealthSnapshot) :
    ∀ a, Resilience.nonRedStreakFrom a ss ≤ a + ss.length := by
  induction ss with
  | nil => intro a; simp [Resilience.nonRedStreakFrom]
  | cons s rest ih =>
      intro a
      simp only [Resilience.nonRedStreakFrom, List.foldl_cons, List.length_cons] at ih ⊢
      split
      · have := ih 0; omega
      · have := ih (a + 1); omega

/-- C8: Freeze-powers latch.  From a fresh `ResilienceWatchdog`:
`freeze_powers_active` becomes true only at an evaluation preceded by
at least `max_continuous_red_days` consecutive `Red` snapshots (the
trailing Red streak of the processed prefix, current snapshot
included), and once true it becomes false only at an evaluation
preceded by at least `recovery_days_required` consecutive non-Red
snapshot days.  While it is true, `check_row15_proposal_allowed`
returns the `FreezePowersActive` block for every call — yet
`DeadMansCovenant::probe_liveness` reads no watchdog state (the
quantified watchdog `w` below does not occur in the probe), so even
under an active freeze the Covenant's own trigger law is exactly the
two-threshold condition, never blocked or delayed. -/
theorem claim_C8_freeze_powers_latch (p : Resilience.ResiliencePolicy)
    (ss : List Resilience.QuorumHealthSnapshot)
    (hlen : ss.length < Resilience.u32Size) :
    (∀ i, i < ss.length →
      (Resilience.runSnapshots (Resilience.ResilienceWatchdog.new p)
        (ss.take i)).freezePowersActive = false →
      (Resilience.runSnapshots (Resilience.ResilienceWatchdog.new p)
        (ss.take (i + 1))).freezePowersActive = true →
      p.maxContinuousRedDays ≤ Resilience.redStreak (ss.take (i + 1))) ∧
    (∀ i, i < ss.length →
      (Resilience.runSnapshots (Resilience.ResilienceWatchdog.new p)
        (ss.take i)).freezePowersActive = true →
      (Resilience.runSnapshots (Resilience.ResilienceWatchdog.new p)
        (ss.take (i + 1))).freezePowersActive = false →
      p.recoveryDaysRequired ≤ Resilience.nonRedStreak (ss.take (i + 1))) ∧
    (∀ w : Resilience.ResilienceWatchdog, w.freezePowersActive = true →
      Resilience.checkRow15ProposalAllowed w =
        .error { reason := .FreezePowersActive, healthState := .Red, score := 0 }) ∧
    (∀ (w : Resilience.ResilienceWatchdog) (c : Row15.DeadMansCovenant) (h now : Nat),
      w.freezePowersActive = true → c.state = .Live →
      ((∃ ev, (c.probeLiveness h now).1 = .FrozenCanonTriggered ev) ↔
        (Row15.QUORUM_ABSENCE_THRESHOLD_SECS ≤ now - c.lastAttestationTime ∧
         Row15.QUORUM_ABSENCE_THRESHOLD_BLOCKS ≤ h - c.lastAttestationHeight))) := by
  refine ⟨?_, ?_, ?_,
    fun w c h now _ hc => (probeLiveness_trigger_iff c h now hc).1⟩
  · intro i hi hbefore hafter
    have htake : ss.take (i + 1) = ss.take i ++ [ss[i]] := by
      rw [List.take_succ, List.getElem?_eq_getElem hi]
      rfl
    have hrun : Resilience.runSnapshots (Resilience.ResilienceWatchdog.new p)
        (ss.take (i + 1)) =
        ((Resilience.runSnapshots (Resilience.ResilienceWatchdog.new p)
          (ss.take i)).evaluate ss[i]).1 := by
      rw [htake, runSnapshots_append]
      rfl
    rw [hrun] at hafter
    obtain ⟨hred, hle⟩ := eval_freeze_on _ _ hbefore hafter
    have htlen : (ss.take i).length ≤ ss.length := by
      rw [List.length_take]; omega
    have htli : (ss.take i).length ≤ i := by
      rw [List.length_take]; omega
    obtain ⟨hc1, hc2, hc3⟩ := run_counters (ss.take i)
      (Resilience.ResilienceWatchdog.new p)
      (by show 0 + (ss.take i).length < Resilience.u32Size; omega)
      (by show 0 + (ss.take i).length < Resilience.u32Size; omega)
    have hc1' : (Resilience.runSnapshots (Resilience.ResilienceWatchdog.new p)
        (ss.take i)).continuousRedDays = Resilience.redStreakFrom 0 (ss.take i) := hc1
    have hpol : (Resilience.runSnapshots (Resilience.ResilienceWatchdog.new p)
        (ss.take i)).policy = p := hc3
    have hbound := redStreakFrom_le (ss.take i) 0
    have hmod : (Resilience.redStreakFrom 0 (ss.take i) + 1) % Resilience.u32Size =
        Resilience.redStreakFrom 0 (ss.take i) + 1 :=
      Nat.mod_eq_of_lt (by omega)
    rw [hpol, hc1', hmod] at hle
    have hfinal : Resilience.redStreak (ss.take (i + 1)) =
        Resilience.redStreakFrom 0 (ss.take i) + 1 := by
      rw [show Resilience.redStreak (ss.take (i + 1)) =
        Resilience.redStreakFrom 0 (ss.take (i + 1)) from rfl, htake]
      simp only [Resilience.redStreakFrom, List.foldl_append, List.foldl_cons,
        List.foldl_nil, if_pos hred]
    omega
  · intro i hi hbefore hafter
    have htake : ss.take (i + 1) = ss.take i ++ [ss[i]] := by
      rw [List.take_succ, List.getElem?_eq_getElem hi]
      rfl
    have hrun : Resilience.runSnapshots (Resilience.ResilienceWatchdog.new p)
        (ss.take (i + 1)) =
        ((Resilience.runSnapshots (Resilience.ResilienceWatchdog.new p)
          (ss.take i)).evaluate ss[i]).1 := by
      rw [htake, runSnapshots_append]
      rfl
    rw [hrun] at hafter
    obtain ⟨hgreen, hle⟩ := eval_freeze_off _ _ hbefore hafter
    have htlen : (ss.take i).length ≤ ss.length := by
      rw [List.length_take]; omega
    have htli : (ss.take i).length ≤ i := by
      rw [List.length_take]; omega
    obtain ⟨hc1, hc2, hc3⟩ := run_counters (ss.take i)
      (Resilience.ResilienceWatchdog.new p)
      (by show 0 + (ss.take i).length < Resilience.u32Size; omega)
      (by show 0 + (ss.take i).length < Resilience.u32Size; omega)
    have hc2' : (Resilience.runSnapshots (Resilience.ResilienceWatchdog.new p)
        (ss.take i)).daysSinceRed = Resilience.nonRedStreakFrom 0 (ss.take i) := hc2
    have hpol : (Resilience.runSnapshots (Resilience.ResilienceWatchdog.new p)
        (ss.take i)).policy = p := hc3
    have hbound := nonRedStreakFrom_le (ss.take i) 0
    have hmod : (Resilience.nonRedStreakFrom 0 (ss.take i) + 1) % Resilience.u32Size =
        Resilience.nonRedStreakFrom 0 (ss.take i) + 1 :=
      Nat.mod_eq_of_lt (by omega)
    rw [hpol, hc2', hmod] at hle
    have hnotred : ¬(ss[i].healthState = Resilience.HealthState.Red) := by
      rw [hgreen]; simp
    have hfinal : Resilience.nonRedStreak (ss.take (i + 1)) =
        Resilience.nonRedStreakFrom 0 (ss.take i) + 1 := by
      rw [show Resilience.nonRedStreak (ss.take (i + 1)) =
        Resilience.nonRedStreakFrom 0 (ss.take (i + 1)) from rfl, htake]
      simp only [Resilience.nonRedStreakFrom, List.foldl_append, List.foldl_cons,
        List.foldl_nil, if_neg hnotred]
    omega
  · intro w hw
    simp [Resilience.checkRow15ProposalAllowed, hw]

/-- C8 witness: the theorem applied to a policy with a 1-day freeze
window and a single `Red` snapshot: freeze powers latch on at the
first evaluation, which is preceded by a 1-day Red streak. -/
theorem claim_C8_witness :
    Fixtures.ssRed1.length < Resilience.u32Size ∧ 0 < Fixtures.ssRed1.length ∧
    (Resilience.runSnapshots (Resilience.ResilienceWatchdog.new Fixtures.pQuick)
      (Fixtures.ssRed1.take 0)).freezePowersActive = false ∧
    (Resilience.runSnapshots (Resilience.ResilienceWatchdog.new Fixtures.pQuick)
      (Fixtures.ssRed1.take 1)).freezePowersActive = true ∧
    Fixtures.pQuick.maxContinuousRedDays ≤ Resilience.redStreak (Fixtures.ssRed1.take 1) := by
  have hafter : (Resilience.runSnapshots (Resilience.ResilienceWatchdog.new Fixtures.pQuick)
      (Fixtures.ssRed1.take 1)).freezePowersActive = true := rfl
  exact ⟨by decide, by decide, rfl, hafter,
    (claim_C8_freeze_powers_latch Fixtures.pQuick Fixtures.ssRed1 (by decide)).1 0 (by decide) rfl hafter⟩
